import Mathlib

/-! Shallow embedding of the control orchestrator of revaultd
(src/daemon/control.rs): the data model, the signature verifier, the
coordinator relay and the RevocationTxs, UnvaultTx and listing handlers,
together with theorems settling the specification's claims about them.
External collaborators (the secp256k1 library, bip32 derivation, the
sighash computation of sigfetcher.rs, the database file and the noise
transport) are modelled as explicit parameters or, where the spec pins
their contract down, as definitions modelled from the spec. -/

namespace Revaultd

/-- Bytes of a signature blob (values below 256 in the source). -/
abbrev Byte := Nat

/-- A secp256k1 public key wrapped as a bitcoin::PublicKey; `key` is the
inner secp256k1 key, kept as an abstract atom. -/
structure BitcoinPubKey where
  key : Nat
deriving DecidableEq, Repr

/-- A bitcoin outpoint: funding transaction id and output index. -/
structure OutPoint where
  txid : Nat
  vout : Nat
deriving DecidableEq, Repr

/-- Vault lifecycle status ladder (revaultd::VaultStatus). -/
inductive VaultStatus where
  | Unconfirmed
  | Funded
  | Securing
  | Secured
  | Activating
  | Active
  | Unvaulting
  | Unvaulted
  | Spending
  | Canceling
  | EmergencyVaulting
  | UnvaultEmergencyVaulting
  | Spent
  | Canceled
  | EmergencyVaulted
  | UnvaultEmergencyVaulted
deriving DecidableEq, Repr

/-- Modelled from the spec: the Display of VaultStatus behind the handler
reply the spec quotes literally as "Invalid vault status: expected Funded
but got Unconfirmed" (the Display impl lives in revaultd.rs, which is not
under src/); per that quote each variant renders as its constructor name. -/
def VaultStatus.fmt : VaultStatus → String
  | .Unconfirmed => "Unconfirmed"
  | .Funded => "Funded"
  | .Securing => "Securing"
  | .Secured => "Secured"
  | .Activating => "Activating"
  | .Active => "Active"
  | .Unvaulting => "Unvaulting"
  | .Unvaulted => "Unvaulted"
  | .Spending => "Spending"
  | .Canceling => "Canceling"
  | .EmergencyVaulting => "EmergencyVaulting"
  | .UnvaultEmergencyVaulting => "UnvaultEmergencyVaulting"
  | .Spent => "Spent"
  | .Canceled => "Canceled"
  | .EmergencyVaulted => "EmergencyVaulted"
  | .UnvaultEmergencyVaulted => "UnvaultEmergencyVaulted"

/-- The two sighash flags the daemon uses (bitcoin::SigHashType). -/
inductive SigHashType where
  | All
  | AllPlusAnyoneCanPay
deriving DecidableEq, Repr

/-- Value of the flag byte (`SigHashType::... as u8` in the source). -/
def SigHashType.toByte : SigHashType → Byte
  | .All => 0x01
  | .AllPlusAnyoneCanPay => 0x81

/-- A bitcoin transaction as the handlers consume it: its witness-exclusive
`txid()` and witness-inclusive `wtxid()`, kept as two abstract atoms since
the code distinguishes them. -/
structure UnsignedTx where
  txid : Nat
  wtxid : Nat
deriving DecidableEq, Repr

/-- A PSBT input: the collected partial signatures, a map from public key
to DER signature bytes followed by one sighash-flag byte. The source's
BTreeMap is embedded as its (key-ordered) entry list: list order is the
map's iteration order. -/
structure Input where
  partial_sigs : List (BitcoinPubKey × List Byte)
deriving DecidableEq, Repr

/-- The global part of a PSBT. -/
structure GlobalPsbt where
  unsigned_tx : UnsignedTx
deriving DecidableEq, Repr

/-- A partially signed transaction container (what `inner_tx()` exposes). -/
structure Psbt where
  global : GlobalPsbt
  inputs : List Input
deriving DecidableEq, Repr

/-- A revault transaction (Cancel, Emergency, UnvaultEmergency or Unvault);
the handlers only reach it through `inner_tx()`. -/
structure Tx where
  inner_tx : Psbt
deriving DecidableEq, Repr

/-- An error of the external secp256k1 library, kept abstract. -/
structure SecpError where
  code : Nat
deriving DecidableEq, Repr

/-- An error thrown when the verification of a signature fails
(SigError in control.rs). -/
inductive SigError where
  | InvalidLength
  | InvalidSighash
  | VerifError (e : SecpError)
deriving DecidableEq, Repr

/-- The Display impl of SigError in control.rs. -/
def SigError.fmt : SigError → String
  | .InvalidLength => "Invalid length of signature"
  | .InvalidSighash => "Invalid SIGHASH type"
  | .VerifError e => "Signature verification error: '" ++ toString e.code ++ "'"

/-- External cryptographic collaborators, kept parametric: `from_der` and
`secp_verify` stand for the secp256k1 library (DER decoding to an abstract
signature atom, and ECDSA verification of it against a sighash under a
key); `presigned_tx_sighash` (sigfetcher.rs, not under src/) is, modelled
from the spec, the sighash of the transaction under the given flag;
`derive_pub` is unhardened bip32 child derivation (xpub and index to the
derived public key) of the external bitcoin library. -/
structure Ctx where
  from_der : List Byte → Except SecpError Nat
  secp_verify : Nat → Nat → Nat → Except SecpError Unit
  presigned_tx_sighash : Tx → SigHashType → Nat
  derive_pub : Nat → Nat → BitcoinPubKey

/-- Result of running code that may panic (`unwrap`, `expect`, `assert!`):
either the panic's message or the computed value. -/
inductive PanicOr (α : Type) where
  | panic (msg : String)
  | value (a : α)
deriving DecidableEq, Repr

/-- Decidable equality for Except, to evaluate the embedded fallible
results on concrete inputs. -/
instance instDecEqExcept {ε α : Type} [DecidableEq ε] [DecidableEq α] :
    DecidableEq (Except ε α) := fun a b =>
  match a, b with
  | .error e, .error e' =>
    if h : e = e' then .isTrue (by rw [h])
    else .isFalse (by intro hc; cases hc; exact h rfl)
  | .ok x, .ok y =>
    if h : x = y then .isTrue (by rw [h])
    else .isFalse (by intro hc; cases hc; exact h rfl)
  | .error _, .ok _ => .isFalse (by intro hc; cases hc)
  | .ok _, .error _ => .isFalse (by intro hc; cases hc)

/-- Rust's slice `split_last`: `Some((last, init))` for a non-empty slice,
`None` for the empty one. -/
def split_last : List Byte → Option (Byte × List Byte)
  | [] => none
  | [b] => some (b, [])
  | b :: b' :: bs =>
    match split_last (b' :: bs) with
    | some (last, init) => some (last, b :: init)
    | none => none

/-- Shared loop body of check_revocation_signatures and
check_unvault_signatures: walk the signature map, split each blob's last
byte (`unwrap` panics on an empty blob), demand it equals `flag`, DER
decode the rest and verify it against `sighash`. -/
def check_sigs_loop (ctx : Ctx) (sighash : Nat) (flag : Byte) :
    List (BitcoinPubKey × List Byte) → PanicOr (Except SigError Unit)
  | [] => .value (.ok ())
  | (pubkey, sig) :: rest =>
    match split_last sig with
    | none => .panic "called Option::unwrap on a None value"
    | some (sighash_type, sig) =>
      if sighash_type ≠ flag then .value (.error .InvalidSighash)
      else
        match ctx.from_der sig with
        | .error e => .value (.error (.VerifError e))
        | .ok signature =>
          match ctx.secp_verify sighash signature pubkey.key with
          | .error e => .value (.error (.VerifError e))
          | .ok _ => check_sigs_loop ctx sighash flag rest

/-- check_revocation_signatures of control.rs: every signature of a
revocation transaction (Cancel, Emergency or UnvaultEmergency) must carry
the ALL|ANYONECANPAY flag byte and verify against that sighash of the
transaction. -/
def check_revocation_signatures (ctx : Ctx) (tx : Tx)
    (sigs : List (BitcoinPubKey × List Byte)) : PanicOr (Except SigError Unit) :=
  let sighash_type := SigHashType.AllPlusAnyoneCanPay
  let sighash := ctx.presigned_tx_sighash tx sighash_type
  check_sigs_loop ctx sighash sighash_type.toByte sigs

/-- check_unvault_signatures of control.rs: the signatures checked are the
partial signatures of the unvault's single input (`get(0).expect` panics
when there is none), with the ALL flag. -/
def check_unvault_signatures (ctx : Ctx) (tx : Tx) : PanicOr (Except SigError Unit) :=
  let sighash_type := SigHashType.All
  let sighash := ctx.presigned_tx_sighash tx sighash_type
  match tx.inner_tx.inputs.head? with
  | none => .panic "Unvault always has 1 input"
  | some input0 => check_sigs_loop ctx sighash sighash_type.toByte input0.partial_sigs

/-- BTreeMap::contains_key over the embedded signature map. -/
def contains_key (m : List (BitcoinPubKey × List Byte)) (pk : BitcoinPubKey) : Bool :=
  m.any fun p => p.1 = pk

/-- Role of a presigned transaction row (one row per vault and role). -/
inductive TxRole where
  | Unvault
  | Cancel
  | Emergency
  | UnvaultEmergency
deriving DecidableEq, Repr

/-- A vault row of the database (database::DbVault). -/
structure DbVault where
  id : Nat
  deposit_outpoint : OutPoint
  amount : Nat
  derivation_index : Nat
  status : VaultStatus
  updated_at : Nat
deriving DecidableEq, Repr

/-- A presigned-transaction row of the database: row id, owning vault and
role, and the stored PSBT. -/
structure PresignedRow where
  id : Nat
  vault_id : Nat
  role : TxRole
  tx : Tx
deriving DecidableEq, Repr

/-- The daemon's database state: the vault table and the
presigned-transaction table. -/
structure Db where
  vaults : List DbVault
  presigned : List PresignedRow
deriving DecidableEq, Repr

/-- A database error (database::DatabaseError); propagating one out of a
handler is fatal for the daemon. -/
structure DatabaseError where
  msg : String
deriving DecidableEq, Repr

/-- Modelled from the spec: `vault_by_deposit(outpoint) → Option<Vault>` of
the Persistence Gateway (database/interface.rs is not under src/) — the
vault row keyed by the deposit outpoint, if any. -/
def db_vault_by_deposit (db : Db) (outpoint : OutPoint) : Option DbVault :=
  db.vaults.find? fun v => v.deposit_outpoint = outpoint

/-- Modelled from the spec: `presigned_tx(vault_id, role) → (row_id,
PresignedTx)` of the Persistence Gateway, which "fails NotFound if
missing" (database/interface.rs is not under src/). -/
def db_presigned_tx (db : Db) (vault_id : Nat) (role : TxRole) :
    Except DatabaseError (Nat × Tx) :=
  match db.presigned.find? fun r => r.vault_id = vault_id ∧ r.role = role with
  | some row => .ok (row.id, row.tx)
  | none => .error { msg := "NotFound" }

/-- db_unvault_transaction of database/interface.rs, via the gateway. -/
def db_unvault_transaction (db : Db) (vault_id : Nat) : Except DatabaseError (Nat × Tx) :=
  db_presigned_tx db vault_id .Unvault

/-- db_cancel_transaction of database/interface.rs, via the gateway. -/
def db_cancel_transaction (db : Db) (vault_id : Nat) : Except DatabaseError (Nat × Tx) :=
  db_presigned_tx db vault_id .Cancel

/-- db_emer_transaction of database/interface.rs, via the gateway. -/
def db_emer_transaction (db : Db) (vault_id : Nat) : Except DatabaseError (Nat × Tx) :=
  db_presigned_tx db vault_id .Emergency

/-- db_unvault_emer_transaction of database/interface.rs, via the gateway. -/
def db_unvault_emer_transaction (db : Db) (vault_id : Nat) : Except DatabaseError (Nat × Tx) :=
  db_presigned_tx db vault_id .UnvaultEmergency

/-- Modelled from the spec: the merge step of `update_presigned_tx` —
new signatures are merged into the stored partial-sig map and an existing
signature is never overwritten ("signatures are immutable once recorded"). -/
def merge_partial_sigs (stored new_sigs : List (BitcoinPubKey × List Byte)) :
    List (BitcoinPubKey × List Byte) :=
  stored ++ new_sigs.filter fun p => ¬ contains_key stored p.1

/-- Merge `new_sigs` into the partial signatures of the PSBT's first input
(the presigned transactions have a single input before fee bumping). -/
def psbt_merge_sigs (tx : Tx) (new_sigs : List (BitcoinPubKey × List Byte)) : Tx :=
  { inner_tx := { tx.inner_tx with inputs :=
      match tx.inner_tx.inputs with
      | [] => []
      | input0 :: rest =>
        { partial_sigs := merge_partial_sigs input0.partial_sigs new_sigs } :: rest } }

/-- Modelled from the spec: `update_presigned_tx(vault_id, row_id,
new_sigs, secp_ctx) → Ok | DbError` of the Persistence Gateway
(database/actions.rs is not under src/) — atomically merge the new
signatures into the row's stored partial-sig map; a missing row is a
database error. The finalization and status-promotion side effects the
gateway may additionally perform are not modelled: no claim depends on
them, only on which rows are written and when. -/
def db_update_presigned_tx (db : Db) (vault_id tx_db_id : Nat)
    (new_sigs : List (BitcoinPubKey × List Byte)) : Except DatabaseError Db :=
  match db.presigned.find? fun r => r.id = tx_db_id ∧ r.vault_id = vault_id with
  | none => .error { msg := "UpdateMissingPresignedTx" }
  | some _ => .ok { db with presigned := db.presigned.map fun r =>
      if r.id = tx_db_id ∧ r.vault_id = vault_id then
        { r with tx := psbt_merge_sigs r.tx new_sigs }
      else r }

/-- The daemon-global state the handlers read (revaultd::RevaultD;
revaultd.rs is not under src/, so only the fields control.rs reads are
kept): the participant role, our stakeholder xpub, and — modelled from the
spec — `vault_address`, the deposit address re-derived from a derivation
index. The coordinator endpoint material is kept as abstract atoms. -/
structure RevaultD where
  is_stakeholder : Bool
  our_stk_xpub : Option Nat
  vault_address : Nat → Nat
  coordinator_host : Nat
  noise_secret : Nat
  coordinator_noisekey : Nat

/-- A `Sig` message of the coordinator wire protocol: one secp key, one
decoded signature, and the id of the transaction it signs. -/
structure Sig where
  pubkey : Nat
  signature : Nat
  id : Nat
deriving DecidableEq, Repr

/-- A transport error of the coordinator relay (the noise transport lives
in the external revault_net library). -/
structure RelayError where
  msg : String
deriving DecidableEq, Repr

/-- The network oracle deciding the coordinator relay's fate: whether the
noise session opens, and whether each `Sig` write goes through. -/
structure Net where
  connect_ok : Bool
  write_ok : Sig → Bool

/-- send_sig_msg of control.rs: one `Sig` message per (pubkey, signature)
pair of the map, in map order, each carrying `id`; the `expect`s on
splitting and DER decoding and the `assert!` on the flag byte panic on an
invalid signature. Returns the messages written. -/
def send_sig_msg (ctx : Ctx) (net : Net) (id : Nat) :
    List (BitcoinPubKey × List Byte) → PanicOr (Except RelayError (List Sig))
  | [] => .value (.ok [])
  | (pubkey, sig) :: rest =>
    match split_last sig with
    | none => .panic "They must provide valid signatures"
    | some (sigtype, sig) =>
      if sigtype = SigHashType.AllPlusAnyoneCanPay.toByte ∨ sigtype = SigHashType.All.toByte then
        match ctx.from_der sig with
        | .error _ => .panic "They must provide valid signatures"
        | .ok signature =>
          if net.write_ok { pubkey := pubkey.key, signature := signature, id := id } then
            match send_sig_msg ctx net id rest with
            | .panic m => .panic m
            | .value (.error e) => .value (.error e)
            | .value (.ok msgs) =>
              .value (.ok ({ pubkey := pubkey.key, signature := signature, id := id } :: msgs))
          else .value (.error { msg := "transport write" })
      else .panic "assertion failed: sighash type flag"

/-- share_rev_signatures of control.rs: assert the three maps are
non-empty, open the noise transport to the coordinator, then send each
map's `Sig` messages with the id of the respective transaction's unsigned
txid. Returns every message written, in order. -/
def share_rev_signatures (ctx : Ctx) (net : Net) (_revaultd : RevaultD)
    (cancel : Tx × List (BitcoinPubKey × List Byte))
    (emer : Tx × List (BitcoinPubKey × List Byte))
    (unvault_emer : Tx × List (BitcoinPubKey × List Byte)) :
    PanicOr (Except RelayError (List Sig)) :=
  if cancel.2.length > 0 ∧ emer.2.length > 0 ∧ unvault_emer.2.length > 0 then
    if net.connect_ok then
      match send_sig_msg ctx net cancel.1.inner_tx.global.unsigned_tx.txid cancel.2 with
      | .panic m => .panic m
      | .value (.error e) => .value (.error e)
      | .value (.ok cancel_msgs) =>
        match send_sig_msg ctx net emer.1.inner_tx.global.unsigned_tx.txid emer.2 with
        | .panic m => .panic m
        | .value (.error e) => .value (.error e)
        | .value (.ok emer_msgs) =>
          match send_sig_msg ctx net
              unvault_emer.1.inner_tx.global.unsigned_tx.txid unvault_emer.2 with
          | .panic m => .panic m
          | .value (.error e) => .value (.error e)
          | .value (.ok unvault_emer_msgs) =>
            .value (.ok (cancel_msgs ++ emer_msgs ++ unvault_emer_msgs))
    else .value (.error { msg := "transport connect" })
  else .panic "We would not spam the coordinator, would we?"

/-- share_unvault_signatures of control.rs: open the noise transport, then
send the partial signatures of the unvault's single input with the id of
its unsigned txid. -/
def share_unvault_signatures (ctx : Ctx) (net : Net) (_revaultd : RevaultD)
    (unvault_tx : Tx) : PanicOr (Except RelayError (List Sig)) :=
  if net.connect_ok then
    match unvault_tx.inner_tx.inputs.head? with
    | none => .panic "Unvault has a single input"
    | some input0 =>
      send_sig_msg ctx net unvault_tx.inner_tx.global.unsigned_tx.txid input0.partial_sigs
  else .value (.error { msg := "transport connect" })

/-- An entry of the ListVaults reply (threadmessages::ListVaultsEntry). -/
structure ListVaultsEntry where
  amount : Nat
  status : VaultStatus
  deposit_outpoint : OutPoint
  derivation_index : Nat
  updated_at : Nat
  address : Nat
deriving DecidableEq, Repr

/-- listvaults_from_db of control.rs: list the vaults from the database,
dropping those failing the optional status filter or the optional
outpoint filter, and attach the re-derived deposit address. -/
def listvaults_from_db (revaultd : RevaultD) (db : Db)
    (statuses : Option (List VaultStatus)) (outpoints : Option (List OutPoint)) :
    List ListVaultsEntry :=
  db.vaults.filterMap fun db_vault =>
    if (match statuses with
        | some statuses => statuses.contains db_vault.status
        | none => true) then
      if (match outpoints with
          | some outpoints => outpoints.contains db_vault.deposit_outpoint
          | none => true) then
        some { amount := db_vault.amount
               status := db_vault.status
               deposit_outpoint := db_vault.deposit_outpoint
               derivation_index := db_vault.derivation_index
               updated_at := db_vault.updated_at
               address := revaultd.vault_address db_vault.derivation_index }
      else none
    else none

/-- A typed error of the RPC control surface (threadmessages.rs is not
under src/); the payloads are those control.rs constructs. -/
inductive RpcControlError where
  | UnknownOutpoint (outpoint : OutPoint)
  | InvalidStatus (got expected : VaultStatus)
  | InvalidPsbt (s : String)
  | Communication (s : String)
deriving DecidableEq, Repr

/-- An entry of the ListPresignedTransactions reply
(threadmessages::VaultPresignedTransactions). -/
structure VaultPresignedTransactions where
  outpoint : OutPoint
  unvault : Tx
  cancel : Tx
  emergency : Option Tx
  unvault_emergency : Option Tx
deriving DecidableEq, Repr

/-- The first loop of presigned_txs_list_from_outpoints: resolve each
requested outpoint to its vault, rejecting an unknown outpoint and a
vault whose presigned transactions are not in the database yet. -/
def collect_presigned_vaults (db : Db) :
    List OutPoint → Except RpcControlError (List DbVault)
  | [] => .ok []
  | outpoint :: rest =>
    match db_vault_by_deposit db outpoint with
    | some vault =>
      match vault.status with
      | .Unconfirmed => .error (.InvalidStatus vault.status .Funded)
      | _ =>
        match collect_presigned_vaults db rest with
        | .error e => .error e
        | .ok vaults => .ok (vault :: vaults)
    | none => .error (.UnknownOutpoint outpoint)

/-- The second loop of presigned_txs_list_from_outpoints: fetch, for each
vault, the unvault and cancel rows, and for a stakeholder also the two
emergency rows; a missing row is a database error. -/
def build_presigned_tx_list (revaultd : RevaultD) (db : Db) :
    List DbVault → Except DatabaseError (List VaultPresignedTransactions)
  | [] => .ok []
  | db_vault :: rest =>
    match db_unvault_transaction db db_vault.id with
    | .error e => .error e
    | .ok (_, unvault) =>
      match db_cancel_transaction db db_vault.id with
      | .error e => .error e
      | .ok (_, cancel) =>
        match (if revaultd.is_stakeholder then
                 match db_emer_transaction db db_vault.id with
                 | .error e => .error e
                 | .ok (_, emer) =>
                   match db_unvault_emer_transaction db db_vault.id with
                   | .error e => .error e
                   | .ok (_, unemer) => .ok (some emer, some unemer)
               else .ok (none, none) : Except DatabaseError (Option Tx × Option Tx)) with
        | .error e => .error e
        | .ok (emergency, unvault_emergency) =>
          match build_presigned_tx_list revaultd db rest with
          | .error e => .error e
          | .ok tx_list =>
            .ok ({ outpoint := db_vault.deposit_outpoint
                   unvault := unvault
                   cancel := cancel
                   emergency := emergency
                   unvault_emergency := unvault_emergency } :: tx_list)

/-- presigned_txs_list_from_outpoints of control.rs: with an explicit
outpoint list, resolve it (unknown outpoint and Unconfirmed vault are
inner, per-request errors); with None, take every vault of the database.
Then list each vault's presigned transactions; a database failure is the
outer error, fatal for the daemon. -/
def presigned_txs_list_from_outpoints (revaultd : RevaultD) (db : Db)
    (outpoints : Option (List OutPoint)) :
    Except DatabaseError (Except RpcControlError (List VaultPresignedTransactions)) :=
  match outpoints with
  | some outpoints =>
    match collect_presigned_vaults db outpoints with
    | .error e => .ok (.error e)
    | .ok db_vaults =>
      match build_presigned_tx_list revaultd db db_vaults with
      | .error e => .error e
      | .ok tx_list => .ok (.ok tx_list)
  | none =>
    match build_presigned_tx_list revaultd db db.vaults with
    | .error e => .error e
    | .ok tx_list => .ok (.ok tx_list)

/-- An observable side effect of a handler, in program order: a succeeded
`db_update_presigned_tx` call (with the vault row, presigned row and the
signatures merged), or an invocation of the coordinator relay. -/
inductive Event where
  | dbUpdate (vault_id tx_db_id : Nat) (sigs : List (BitcoinPubKey × List Byte))
  | relayRev
  | relayUnvault
deriving DecidableEq, Repr

/-- Outcome of one dispatcher arm: a reply sent on the response channel
(the loop then continues) together with the database state left behind and
the events performed, or a database error propagated with `?` (fatal: the
dispatcher loop ends and the daemon dies), or a panic. -/
inductive HOutcome (ρ : Type) where
  | reply (r : ρ) (db : Db) (events : List Event)
  | fatal (e : DatabaseError)
  | panic (msg : String)
deriving DecidableEq, Repr

/-- The RpcMessageIn::RevocationTxs arm of handle_rpc_messages in
control.rs: the full validation pipeline (stakeholder assertion, vault
status, the three wtxid checks, our-signature presence, the three
signature checks), then the three presigned-row updates, then the relay. -/
def handle_revocation_txs (ctx : Ctx) (net : Net) (revaultd : RevaultD) (db : Db)
    (outpoint : OutPoint) (cancel_tx emer_tx unvault_emer_tx : Tx) :
    HOutcome (Option String) :=
  if revaultd.is_stakeholder = false then .panic "assertion failed: revaultd.is_stakeholder()"
  else
  match db_vault_by_deposit db outpoint with
  | none => .reply (some "Outpoint does not correspond to an existing vault") db []
  | some db_vault =>
    if db_vault.status = VaultStatus.Funded then
      match db_cancel_transaction db db_vault.id with
      | .error e => .fatal e
      | .ok (cancel_db_id, db_cancel_tx) =>
        if cancel_tx.inner_tx.global.unsigned_tx.wtxid ≠
            db_cancel_tx.inner_tx.global.unsigned_tx.wtxid then
          .reply (some ("Invalid Cancel tx: db wtxid is '"
            ++ toString db_cancel_tx.inner_tx.global.unsigned_tx.wtxid
            ++ "' but this PSBT's is '"
            ++ toString cancel_tx.inner_tx.global.unsigned_tx.wtxid ++ "' ")) db []
        else
        match db_emer_transaction db db_vault.id with
        | .error e => .fatal e
        | .ok (emer_db_id, db_emer_tx) =>
          if emer_tx.inner_tx.global.unsigned_tx.wtxid ≠
              db_emer_tx.inner_tx.global.unsigned_tx.wtxid then
            .reply (some ("Invalid Emergency tx: db wtxid is '"
              ++ toString db_emer_tx.inner_tx.global.unsigned_tx.wtxid
              ++ "' but this PSBT's is '"
              ++ toString emer_tx.inner_tx.global.unsigned_tx.wtxid ++ "' ")) db []
          else
          match db_unvault_emer_transaction db db_vault.id with
          | .error e => .fatal e
          | .ok (unvault_emer_db_id, db_unemer_tx) =>
            if unvault_emer_tx.inner_tx.global.unsigned_tx.wtxid ≠
                db_unemer_tx.inner_tx.global.unsigned_tx.wtxid then
              .reply (some ("Invalid Unvault Emergency tx: db wtxid is '"
                ++ toString db_unemer_tx.inner_tx.global.unsigned_tx.wtxid
                ++ "' but this PSBT's is '"
                ++ toString unvault_emer_tx.inner_tx.global.unsigned_tx.wtxid ++ "' ")) db []
            else
            match cancel_tx.inner_tx.inputs.head? with
            | none => .panic "Cancel tx has a single input, inbefore fee bumping."
            | some cancel_input0 =>
              match emer_tx.inner_tx.inputs.head? with
              | none => .panic "Emergency tx has a single input, inbefore fee bumping."
              | some emer_input0 =>
                match unvault_emer_tx.inner_tx.inputs.head? with
                | none => .panic "UnvaultEmergency tx has a single input, inbefore fee bumping."
                | some unvault_emer_input0 =>
                  match revaultd.our_stk_xpub with
                  | none => .panic "We are a stakeholder"
                  | some our_stk_xpub =>
                    if contains_key cancel_input0.partial_sigs
                        (ctx.derive_pub our_stk_xpub db_vault.derivation_index) = false then
                      .reply (some ("No signature for ourselves ("
                        ++ toString (ctx.derive_pub our_stk_xpub db_vault.derivation_index).key
                        ++ ") in Cancel transaction")) db []
                    else if contains_key emer_input0.partial_sigs
                        (ctx.derive_pub our_stk_xpub db_vault.derivation_index) = false then
                      .reply (some "No signature for ourselves in Emergency transaction") db []
                    else if contains_key unvault_emer_input0.partial_sigs
                        (ctx.derive_pub our_stk_xpub db_vault.derivation_index) = false then
                      .reply (some "No signature for ourselves in UnvaultEmergency transaction") db []
                    else
                    match check_revocation_signatures ctx cancel_tx cancel_input0.partial_sigs with
                    | .panic m => .panic m
                    | .value (.error e) =>
                      .reply (some ("Invalid signature in Cancel transaction: "
                        ++ SigError.fmt e)) db []
                    | .value (.ok _) =>
                      match check_revocation_signatures ctx emer_tx emer_input0.partial_sigs with
                      | .panic m => .panic m
                      | .value (.error e) =>
                        .reply (some ("Invalid signature in Emergency transaction: "
                          ++ SigError.fmt e)) db []
                      | .value (.ok _) =>
                        match check_revocation_signatures ctx unvault_emer_tx
                            unvault_emer_input0.partial_sigs with
                        | .panic m => .panic m
                        | .value (.error e) =>
                          .reply (some ("Invalid signature in Unvault Emergency transaction: "
                            ++ SigError.fmt e)) db []
                        | .value (.ok _) =>
                          match db_update_presigned_tx db db_vault.id cancel_db_id
                              cancel_input0.partial_sigs with
                          | .error e => .fatal e
                          | .ok db1 =>
                            match db_update_presigned_tx db1 db_vault.id emer_db_id
                                emer_input0.partial_sigs with
                            | .error e => .fatal e
                            | .ok db2 =>
                              match db_update_presigned_tx db2 db_vault.id unvault_emer_db_id
                                  unvault_emer_input0.partial_sigs with
                              | .error e => .fatal e
                              | .ok db3 =>
                                match share_rev_signatures ctx net revaultd
                                    (cancel_tx, cancel_input0.partial_sigs)
                                    (emer_tx, emer_input0.partial_sigs)
                                    (unvault_emer_tx, unvault_emer_input0.partial_sigs) with
                                | .panic m => .panic m
                                | .value (.error e) =>
                                  .reply (some ("Error while sharing signatures: " ++ e.msg)) db3
                                    [Event.dbUpdate db_vault.id cancel_db_id cancel_input0.partial_sigs,
                                     Event.dbUpdate db_vault.id emer_db_id emer_input0.partial_sigs,
                                     Event.dbUpdate db_vault.id unvault_emer_db_id
                                       unvault_emer_input0.partial_sigs,
                                     Event.relayRev]
                                | .value (.ok _) => .reply none db3
                                    [Event.dbUpdate db_vault.id cancel_db_id cancel_input0.partial_sigs,
                                     Event.dbUpdate db_vault.id emer_db_id emer_input0.partial_sigs,
                                     Event.dbUpdate db_vault.id unvault_emer_db_id
                                       unvault_emer_input0.partial_sigs,
                                     Event.relayRev]
    else
      .reply (some ("Invalid vault status: expected " ++ VaultStatus.fmt .Funded
        ++ " but got " ++ VaultStatus.fmt db_vault.status)) db []

/-- The RpcMessageIn::UnvaultTx arm of handle_rpc_messages in control.rs:
vault lookup and Secured-status check, the unvault wtxid check,
our-signature presence, check_unvault_signatures, then the presigned-row
update and the relay. -/
def handle_unvault_tx (ctx : Ctx) (net : Net) (revaultd : RevaultD) (db : Db)
    (outpoint : OutPoint) (unvault_tx : Tx) :
    HOutcome (Except RpcControlError Unit) :=
  match db_vault_by_deposit db outpoint with
  | none => .reply (.error (.UnknownOutpoint outpoint)) db []
  | some db_vault =>
    if db_vault.status = VaultStatus.Secured then
      match db_unvault_transaction db db_vault.id with
      | .error e => .fatal e
      | .ok (unvault_db_id, db_unvault_tx) =>
        if unvault_tx.inner_tx.global.unsigned_tx.wtxid ≠
            db_unvault_tx.inner_tx.global.unsigned_tx.wtxid then
          .reply (.error (.InvalidPsbt ("Invalid Unvault tx: db wtxid is '"
            ++ toString db_unvault_tx.inner_tx.global.unsigned_tx.wtxid
            ++ "' but this PSBT's is '"
            ++ toString unvault_tx.inner_tx.global.unsigned_tx.wtxid ++ "' "))) db []
        else
        match unvault_tx.inner_tx.inputs.head? with
        | none => .panic "UnvaultTransaction always has 1 input"
        | some input0 =>
          match revaultd.our_stk_xpub with
          | none => .panic "We are a stakeholder"
          | some our_stk_xpub =>
            if contains_key input0.partial_sigs
                (ctx.derive_pub our_stk_xpub db_vault.derivation_index) = false then
              .reply (.error (.InvalidPsbt ("No signature for ourselves ("
                ++ toString (ctx.derive_pub our_stk_xpub db_vault.derivation_index).key
                ++ ") in Unvault transaction"))) db []
            else
            match check_unvault_signatures ctx unvault_tx with
            | .panic m => .panic m
            | .value (.error e) =>
              .reply (.error (.InvalidPsbt ("Invalid signature in Unvault transaction: '"
                ++ SigError.fmt e ++ "'"))) db []
            | .value (.ok _) =>
              match db_update_presigned_tx db db_vault.id unvault_db_id input0.partial_sigs with
              | .error e => .fatal e
              | .ok db1 =>
                match share_unvault_signatures ctx net revaultd unvault_tx with
                | .panic m => .panic m
                | .value (.error e) =>
                  .reply (.error (.Communication ("Sharing Unvault signatures with coordinator: '"
                    ++ e.msg ++ "'"))) db1
                    [Event.dbUpdate db_vault.id unvault_db_id input0.partial_sigs,
                     Event.relayUnvault]
                | .value (.ok _) => .reply (.ok ()) db1
                    [Event.dbUpdate db_vault.id unvault_db_id input0.partial_sigs,
                     Event.relayUnvault]
    else
      .reply (.error (.InvalidStatus db_vault.status .Funded)) db []

/-- Concrete cryptographic fixture for witnesses: DER blob [42] decodes to
the signature atom 1, which verifies exactly against sighash 50 under key
5; every transaction hashes to 50; key derivation lands on key 5. -/
def exCtx : Ctx :=
  { from_der := fun bs => if bs = [42] then .ok 1 else .error ⟨7⟩
    secp_verify := fun h s k => if h = 50 ∧ s = 1 ∧ k = 5 then .ok () else .error ⟨8⟩
    presigned_tx_sighash := fun _tx _flag => 50
    derive_pub := fun _x _i => ⟨5⟩ }

/-- Build a single-input transaction fixture from its two ids and its
partial signatures. -/
def mkTx (t w : Nat) (sigs : List (BitcoinPubKey × List Byte)) : Tx :=
  { inner_tx := { global := { unsigned_tx := { txid := t, wtxid := w } },
                  inputs := [{ partial_sigs := sigs }] } }

/-- Vault fixture: vault 0, funded, derivation index 7. -/
def exVault : DbVault :=
  { id := 0, deposit_outpoint := { txid := 1, vout := 0 }, amount := 100,
    derivation_index := 7, status := .Funded, updated_at := 0 }

/-- Database fixture: one funded vault with its four empty presigned rows. -/
def exDb : Db :=
  { vaults := [exVault],
    presigned := [
      { id := 1, vault_id := 0, role := .Cancel, tx := mkTx 10 110 [] },
      { id := 2, vault_id := 0, role := .Emergency, tx := mkTx 11 111 [] },
      { id := 3, vault_id := 0, role := .UnvaultEmergency, tx := mkTx 12 112 [] },
      { id := 4, vault_id := 0, role := .Unvault, tx := mkTx 13 113 [] } ] }

/-- Daemon-state fixture: a stakeholder with xpub atom 3. -/
def exRevaultd : RevaultD :=
  { is_stakeholder := true, our_stk_xpub := some 3,
    vault_address := fun i => i + 1000,
    coordinator_host := 0, noise_secret := 0, coordinator_noisekey := 0 }

/-- A valid revocation signature map fixture: our key 5 with DER bytes [42]
and the ALL|ANYONECANPAY flag byte. -/
def exSigs : List (BitcoinPubKey × List Byte) := [(⟨5⟩, [42, 0x81])]

/-- Signed Cancel request fixture matching the stored row. -/
def exCancelTx : Tx := mkTx 10 110 exSigs

/-- Signed Emergency request fixture matching the stored row. -/
def exEmerTx : Tx := mkTx 11 111 exSigs

/-- Signed UnvaultEmergency request fixture matching the stored row. -/
def exUETx : Tx := mkTx 12 112 exSigs

/-- A network on which the relay fully works. -/
def exNet : Net := { connect_ok := true, write_ok := fun _ => true }

/-- A network on which every relay write fails. -/
def exNetBad : Net := { connect_ok := true, write_ok := fun _ => false }

/-- The database fixture after merging exSigs into the Cancel row. -/
def exDb1 : Db :=
  { vaults := [exVault],
    presigned := [
      { id := 1, vault_id := 0, role := .Cancel, tx := mkTx 10 110 exSigs },
      { id := 2, vault_id := 0, role := .Emergency, tx := mkTx 11 111 [] },
      { id := 3, vault_id := 0, role := .UnvaultEmergency, tx := mkTx 12 112 [] },
      { id := 4, vault_id := 0, role := .Unvault, tx := mkTx 13 113 [] } ] }

/-- The database fixture after also merging exSigs into the Emergency row. -/
def exDb2 : Db :=
  { vaults := [exVault],
    presigned := [
      { id := 1, vault_id := 0, role := .Cancel, tx := mkTx 10 110 exSigs },
      { id := 2, vault_id := 0, role := .Emergency, tx := mkTx 11 111 exSigs },
      { id := 3, vault_id := 0, role := .UnvaultEmergency, tx := mkTx 12 112 [] },
      { id := 4, vault_id := 0, role := .Unvault, tx := mkTx 13 113 [] } ] }

/-- The database fixture after all three revocation merges. -/
def exDb3 : Db :=
  { vaults := [exVault],
    presigned := [
      { id := 1, vault_id := 0, role := .Cancel, tx := mkTx 10 110 exSigs },
      { id := 2, vault_id := 0, role := .Emergency, tx := mkTx 11 111 exSigs },
      { id := 3, vault_id := 0, role := .UnvaultEmergency, tx := mkTx 12 112 exSigs },
      { id := 4, vault_id := 0, role := .Unvault, tx := mkTx 13 113 [] } ] }

/-- Database fixture whose single vault is Secured (for the unvault flow). -/
def exDbSecured : Db :=
  { vaults := [{ exVault with status := .Secured }], presigned := exDb.presigned }

/-- A valid unvault signature map fixture: our key 5, DER bytes [42], the
ALL flag byte. -/
def exUnvaultSigs : List (BitcoinPubKey × List Byte) := [(⟨5⟩, [42, 0x01])]

/-- Signed Unvault request fixture matching the stored row. -/
def exUnvaultTx : Tx := mkTx 13 113 exUnvaultSigs

/-- Database fixture with a single Unconfirmed vault and, accordingly, no
presigned rows. -/
def exDbUnconf : Db :=
  { vaults := [{ exVault with status := .Unconfirmed }], presigned := [] }

/-- One spec-side passing signature entry of the verifier loop: the blob
splits into a DER part and exactly the expected flag byte, the DER part
decodes, and the decoded signature verifies against the sighash under the
entry's key. Used to compare the source's verifier against the spec's
words. -/
def spec_entry_passes (ctx : Ctx) (sighash : Nat) (flag : Byte)
    (p : BitcoinPubKey × List Byte) : Prop :=
  ∃ init s, split_last p.2 = some (flag, init)
    ∧ ctx.from_der init = .ok s
    ∧ ctx.secp_verify sighash s p.1.key = .ok ()

/-- The verdict of the verifier loop on one entry alone. -/
def entry_verdict (ctx : Ctx) (sighash : Nat) (flag : Byte)
    (p : BitcoinPubKey × List Byte) : PanicOr (Except SigError Unit) :=
  match split_last p.2 with
  | none => .panic "called Option::unwrap on a None value"
  | some (sighash_type, sig) =>
    if sighash_type ≠ flag then .value (.error .InvalidSighash)
    else
      match ctx.from_der sig with
      | .error e => .value (.error (.VerifError e))
      | .ok signature =>
        match ctx.secp_verify sighash signature p.1.key with
        | .error e => .value (.error (.VerifError e))
        | .ok _ => .value (.ok ())

/-- A signature entry the relay can process without panicking: the blob
splits, the flag byte is one of the two accepted ones, and the DER part
decodes. -/
def entry_relayable (ctx : Ctx) (p : BitcoinPubKey × List Byte) : Prop :=
  ∃ last init s, split_last p.2 = some (last, init)
    ∧ (last = SigHashType.AllPlusAnyoneCanPay.toByte ∨ last = SigHashType.All.toByte)
    ∧ ctx.from_der init = .ok s

/-- A map containing a key is not empty. -/
theorem contains_key_ne_nil {m : List (BitcoinPubKey × List Byte)} {pk : BitcoinPubKey}
    (h : contains_key m pk = true) : m ≠ [] := by
  intro hnil
  subst hnil
  simp [contains_key] at h

/-- Bridge form of contains_key_ne_nil matching the hypothesis shape the
handler's if-split leaves behind. -/
theorem ne_nil_of_not_contains_false {m : List (BitcoinPubKey × List Byte)}
    {pk : BitcoinPubKey} (h : ¬ contains_key m pk = false) : m ≠ [] := by
  intro hnil
  subst hnil
  exact h rfl

/-- split_last succeeds exactly on non-empty blobs. -/
theorem split_last_isSome {l : List Byte} (h : l ≠ []) :
    ∃ last init, split_last l = some (last, init) := by
  cases l with
  | nil => exact absurd rfl h
  | cons b bs =>
    clear h
    induction bs generalizing b with
    | nil => exact ⟨b, [], rfl⟩
    | cons b' bs' ih =>
      obtain ⟨last, init, hl⟩ := ih b'
      exact ⟨last, b :: init, by simp [split_last, hl]⟩

/-- The verifier loop processes its first entry exactly as entry_verdict
does, and continues on success. -/
theorem check_sigs_loop_cons (ctx : Ctx) (sighash : Nat) (flag : Byte)
    (p : BitcoinPubKey × List Byte) (rest : List (BitcoinPubKey × List Byte)) :
    check_sigs_loop ctx sighash flag (p :: rest) =
      match entry_verdict ctx sighash flag p with
      | .value (.ok _) => check_sigs_loop ctx sighash flag rest
      | r => r := by
  obtain ⟨pk, blob⟩ := p
  rw [check_sigs_loop, entry_verdict]
  cases split_last blob with
  | none => rfl
  | some pr =>
    obtain ⟨last, init⟩ := pr
    dsimp only
    by_cases hf : last ≠ flag
    · simp only [if_pos hf]
    · simp only [if_neg hf]
      cases ctx.from_der init with
      | error e => rfl
      | ok s =>
        dsimp only
        cases ctx.secp_verify sighash s pk.key with
        | error e => rfl
        | ok u => rfl

/-- An entry's verdict is the success one exactly when the entry passes in
the spec's sense. -/
theorem entry_verdict_ok_iff (ctx : Ctx) (sighash : Nat) (flag : Byte)
    (p : BitcoinPubKey × List Byte) :
    entry_verdict ctx sighash flag p = .value (.ok ()) ↔
      spec_entry_passes ctx sighash flag p := by
  rw [entry_verdict, spec_entry_passes]
  cases hs : split_last p.2 with
  | none =>
    dsimp only
    constructor
    · intro h; cases h
    · intro ⟨init, s, hsp, _⟩; cases hsp
  | some pr =>
    obtain ⟨last, init⟩ := pr
    dsimp only
    by_cases hf : last = flag
    · subst hf
      rw [if_neg (by simp)]
      cases hd : ctx.from_der init with
      | error e =>
        dsimp only
        constructor
        · intro h; cases h
        · intro ⟨init', s, hsp, hds, _⟩
          cases hsp
          rw [hd] at hds
          cases hds
      | ok s =>
        dsimp only
        cases hv : ctx.secp_verify sighash s p.1.key with
        | error e =>
          dsimp only
          constructor
          · intro h; cases h
          · intro ⟨init', s', hsp, hds, hvs⟩
            cases hsp
            rw [hd] at hds
            cases hds
            rw [hv] at hvs
            cases hvs
        | ok u =>
          cases u
          dsimp only
          constructor
          · intro _; exact ⟨init, s, rfl, hd, hv⟩
          · intro _; rfl
    · rw [if_pos (by exact hf : ¬ last = flag)]
      constructor
      · intro h; cases h
      · intro ⟨init', s', hsp, _⟩
        cases hsp
        exact absurd rfl hf

/-- A prefix of passing entries does not change the verifier loop's
verdict on what follows. -/
theorem check_sigs_loop_append (ctx : Ctx) (sighash : Nat) (flag : Byte)
    (pre rest : List (BitcoinPubKey × List Byte))
    (hpre : ∀ p ∈ pre, spec_entry_passes ctx sighash flag p) :
    check_sigs_loop ctx sighash flag (pre ++ rest) =
      check_sigs_loop ctx sighash flag rest := by
  induction pre with
  | nil => rfl
  | cons p pre' ih =>
    rw [List.cons_append, check_sigs_loop_cons,
      (entry_verdict_ok_iff ctx sighash flag p).mpr (hpre p (by simp))]
    exact ih fun q hq => hpre q (by simp [hq])

/-- The verifier loop succeeds exactly when every entry passes. -/
theorem check_sigs_loop_ok_iff (ctx : Ctx) (sighash : Nat) (flag : Byte)
    (sigs : List (BitcoinPubKey × List Byte)) :
    check_sigs_loop ctx sighash flag sigs = .value (.ok ()) ↔
      ∀ p ∈ sigs, spec_entry_passes ctx sighash flag p := by
  induction sigs with
  | nil => simp [check_sigs_loop]
  | cons p rest ih =>
    rw [check_sigs_loop_cons]
    cases hv : entry_verdict ctx sighash flag p with
    | panic m =>
      simp only []
      constructor
      · intro h; cases h
      · intro hall
        have := (entry_verdict_ok_iff ctx sighash flag p).mpr (hall p (by simp))
        rw [hv] at this
        cases this
    | value r =>
      cases r with
      | error e =>
        simp only []
        constructor
        · intro h; cases h
        · intro hall
          have := (entry_verdict_ok_iff ctx sighash flag p).mpr (hall p (by simp))
          rw [hv] at this
          cases this
      | ok u =>
        cases u
        simp only []
        rw [ih]
        simp [List.forall_mem_cons, (entry_verdict_ok_iff ctx sighash flag p).mp hv]

/-- The verifier loop reports the verdict of the first failing entry. -/
theorem check_sigs_loop_first_error (ctx : Ctx) (sighash : Nat) (flag : Byte)
    (pre post : List (BitcoinPubKey × List Byte)) (p : BitcoinPubKey × List Byte)
    (er : SigError)
    (hpre : ∀ q ∈ pre, spec_entry_passes ctx sighash flag q)
    (hp : entry_verdict ctx sighash flag p = .value (.error er)) :
    check_sigs_loop ctx sighash flag (pre ++ p :: post) = .value (.error er) := by
  rw [check_sigs_loop_append ctx sighash flag pre _ hpre, check_sigs_loop_cons, hp]

/-- A flag byte other than the expected one yields InvalidSighash. -/
theorem entry_verdict_invalid_sighash (ctx : Ctx) (sighash : Nat) (flag : Byte)
    (p : BitcoinPubKey × List Byte) (last : Byte) (init : List Byte)
    (hsp : split_last p.2 = some (last, init)) (hne : last ≠ flag) :
    entry_verdict ctx sighash flag p = .value (.error .InvalidSighash) := by
  rw [entry_verdict, hsp]
  dsimp only
  simp [hne]

/-- A DER decoding failure yields VerifError. -/
theorem entry_verdict_der_error (ctx : Ctx) (sighash : Nat) (flag : Byte)
    (p : BitcoinPubKey × List Byte) (init : List Byte) (e : SecpError)
    (hsp : split_last p.2 = some (flag, init)) (hd : ctx.from_der init = .error e) :
    entry_verdict ctx sighash flag p = .value (.error (.VerifError e)) := by
  rw [entry_verdict, hsp]
  dsimp only
  simp [hd]

/-- A secp verification failure yields VerifError. -/
theorem entry_verdict_verify_error (ctx : Ctx) (sighash : Nat) (flag : Byte)
    (p : BitcoinPubKey × List Byte) (init : List Byte) (s : Nat) (e : SecpError)
    (hsp : split_last p.2 = some (flag, init)) (hd : ctx.from_der init = .ok s)
    (hv : ctx.secp_verify sighash s p.1.key = .error e) :
    entry_verdict ctx sighash flag p = .value (.error (.VerifError e)) := by
  rw [entry_verdict, hsp]
  dsimp only
  simp [hd, hv]

/-- The only panic an entry verdict can raise is the unwrap panic. -/
theorem entry_verdict_panic_msg (ctx : Ctx) (sighash : Nat) (flag : Byte)
    (p : BitcoinPubKey × List Byte) (m : String)
    (h : entry_verdict ctx sighash flag p = .panic m) :
    m = "called Option::unwrap on a None value" := by
  rw [entry_verdict] at h
  cases hs : split_last p.2 with
  | none =>
    rw [hs] at h
    dsimp only at h
    cases h
    rfl
  | some pr =>
    obtain ⟨last, init⟩ := pr
    rw [hs] at h
    dsimp only at h
    by_cases hf : last ≠ flag
    · rw [if_pos hf] at h; cases h
    · rw [if_neg hf] at h
      cases hd : ctx.from_der init with
      | error e => rw [hd] at h; dsimp only at h; cases h
      | ok s =>
        rw [hd] at h
        dsimp only at h
        cases hv : ctx.secp_verify sighash s p.1.key with
        | error e => rw [hv] at h; dsimp only at h; cases h
        | ok u => rw [hv] at h; dsimp only at h; cases h

/-- The only panic the verifier loop can raise is the unwrap panic. -/
theorem check_sigs_loop_panic_msg (ctx : Ctx) (sighash : Nat) (flag : Byte)
    (sigs : List (BitcoinPubKey × List Byte)) (m : String)
    (h : check_sigs_loop ctx sighash flag sigs = .panic m) :
    m = "called Option::unwrap on a None value" := by
  induction sigs with
  | nil => cases h
  | cons p rest ih =>
    rw [check_sigs_loop_cons] at h
    cases hv : entry_verdict ctx sighash flag p with
    | panic m' =>
      rw [hv] at h
      cases h
      exact entry_verdict_panic_msg ctx sighash flag p m hv
    | value r =>
      rw [hv] at h
      cases r with
      | error e => cases h
      | ok u => cases u; exact ih h

/-- On a map whose blobs are all non-empty the verifier loop never
panics. -/
theorem check_sigs_loop_total (ctx : Ctx) (sighash : Nat) (flag : Byte)
    (sigs : List (BitcoinPubKey × List Byte)) (hne : ∀ p ∈ sigs, p.2 ≠ []) :
    ∃ r, check_sigs_loop ctx sighash flag sigs = .value r := by
  induction sigs with
  | nil => exact ⟨.ok (), rfl⟩
  | cons p rest ih =>
    rw [check_sigs_loop_cons]
    cases hv : entry_verdict ctx sighash flag p with
    | panic m =>
      exfalso
      obtain ⟨last, init, hs⟩ := split_last_isSome (hne p (by simp))
      rw [entry_verdict, hs] at hv
      dsimp only at hv
      by_cases hf : last ≠ flag
      · rw [if_pos hf] at hv; cases hv
      · rw [if_neg hf] at hv
        cases hd : ctx.from_der init with
        | error e => rw [hd] at hv; dsimp only at hv; cases hv
        | ok s =>
          rw [hd] at hv
          dsimp only at hv
          cases hvv : ctx.secp_verify sighash s p.1.key with
          | error e => rw [hvv] at hv; dsimp only at hv; cases hv
          | ok u => rw [hvv] at hv; dsimp only at hv; cases hv
    | value r =>
      cases r with
      | error e => exact ⟨.error e, rfl⟩
      | ok u =>
        cases u
        obtain ⟨r, hr⟩ := ih fun q hq => hne q (by simp [hq])
        exact ⟨r, hr⟩

/-- An entry that passes verification under either accepted flag is
relayable. -/
theorem relayable_of_passes (ctx : Ctx) (sighash : Nat) (flag : Byte)
    (p : BitcoinPubKey × List Byte)
    (hflag : flag = SigHashType.AllPlusAnyoneCanPay.toByte ∨ flag = SigHashType.All.toByte)
    (h : spec_entry_passes ctx sighash flag p) : entry_relayable ctx p := by
  obtain ⟨init, s, hsp, hd, _⟩ := h
  exact ⟨flag, init, s, hsp, hflag, hd⟩

/-- On successful send, one message per map entry, in order, all carrying
the requested id and the entries' keys. -/
theorem send_sig_msg_ok (ctx : Ctx) (net : Net) (id : Nat)
    (sigs : List (BitcoinPubKey × List Byte)) (msgs : List Sig)
    (h : send_sig_msg ctx net id sigs = .value (.ok msgs)) :
    msgs.length = sigs.length ∧ (∀ m ∈ msgs, m.id = id)
      ∧ msgs.map Sig.pubkey = sigs.map fun p => p.1.key := by
  induction sigs generalizing msgs with
  | nil =>
    rw [send_sig_msg] at h
    cases h
    simp
  | cons p rest ih =>
    obtain ⟨pk, blob⟩ := p
    rw [send_sig_msg] at h
    cases hs : split_last blob with
    | none => rw [hs] at h; dsimp only at h; cases h
    | some pr =>
      obtain ⟨sigtype, sig⟩ := pr
      rw [hs] at h
      dsimp only at h
      by_cases hf : sigtype = SigHashType.AllPlusAnyoneCanPay.toByte
          ∨ sigtype = SigHashType.All.toByte
      · rw [if_pos hf] at h
        cases hd : ctx.from_der sig with
        | error e => rw [hd] at h; dsimp only at h; cases h
        | ok s =>
          rw [hd] at h
          dsimp only at h
          by_cases hw : net.write_ok { pubkey := pk.key, signature := s, id := id } = true
          · rw [if_pos hw] at h
            cases hrest : send_sig_msg ctx net id rest with
            | panic m => rw [hrest] at h; dsimp only at h; cases h
            | value r =>
              rw [hrest] at h
              cases r with
              | error e => dsimp only at h; cases h
              | ok ms =>
                dsimp only at h
                cases h
                obtain ⟨hl, hid, hmap⟩ := ih ms hrest
                refine ⟨by simp [hl], ?_, by simp [hmap]⟩
                intro m hm
                rcases List.mem_cons.mp hm with rfl | hm'
                · rfl
                · exact hid m hm'
          · rw [if_neg hw] at h; cases h
      · rw [if_neg hf] at h; cases h

/-- The only panics the relay send loop can raise are its two signature
expectations. -/
theorem send_sig_msg_panic_msg (ctx : Ctx) (net : Net) (id : Nat)
    (sigs : List (BitcoinPubKey × List Byte)) (m : String)
    (h : send_sig_msg ctx net id sigs = .panic m) :
    m = "They must provide valid signatures" ∨ m = "assertion failed: sighash type flag" := by
  induction sigs with
  | nil => rw [send_sig_msg] at h; cases h
  | cons p rest ih =>
    obtain ⟨pk, blob⟩ := p
    rw [send_sig_msg] at h
    cases hs : split_last blob with
    | none =>
      rw [hs] at h
      dsimp only at h
      cases h
      exact Or.inl rfl
    | some pr =>
      obtain ⟨sigtype, sig⟩ := pr
      rw [hs] at h
      dsimp only at h
      by_cases hf : sigtype = SigHashType.AllPlusAnyoneCanPay.toByte
          ∨ sigtype = SigHashType.All.toByte
      · rw [if_pos hf] at h
        cases hd : ctx.from_der sig with
        | error e =>
          rw [hd] at h
          dsimp only at h
          cases h
          exact Or.inl rfl
        | ok s =>
          rw [hd] at h
          dsimp only at h
          by_cases hw : net.write_ok { pubkey := pk.key, signature := s, id := id } = true
          · rw [if_pos hw] at h
            cases hrest : send_sig_msg ctx net id rest with
            | panic m' =>
              rw [hrest] at h
              dsimp only at h
              cases h
              exact ih hrest
            | value r =>
              rw [hrest] at h
              cases r with
              | error e => dsimp only at h; cases h
              | ok ms => dsimp only at h; cases h
          · rw [if_neg hw] at h; cases h
      · rw [if_neg hf] at h
        cases h
        exact Or.inr rfl

/-- On relayable entries the send loop never panics. -/
theorem send_sig_msg_no_panic (ctx : Ctx) (net : Net) (id : Nat)
    (sigs : List (BitcoinPubKey × List Byte))
    (hr : ∀ p ∈ sigs, entry_relayable ctx p) :
    ∃ v, send_sig_msg ctx net id sigs = .value v := by
  induction sigs with
  | nil => exact ⟨.ok [], rfl⟩
  | cons p rest ih =>
    obtain ⟨pk, blob⟩ := p
    obtain ⟨last, init, s, hs, hflag, hd⟩ := hr (pk, blob) (by simp)
    rw [send_sig_msg, hs]
    dsimp only
    rw [if_pos hflag, hd]
    dsimp only
    by_cases hw : net.write_ok { pubkey := pk.key, signature := s, id := id } = true
    · rw [if_pos hw]
      obtain ⟨v, hv⟩ := ih fun q hq => hr q (by simp [hq])
      rw [hv]
      cases v with
      | error e => exact ⟨.error e, rfl⟩
      | ok ms => exact ⟨.ok _, rfl⟩
    · rw [if_neg hw]
      exact ⟨.error { msg := "transport write" }, rfl⟩

/-- With the three maps non-empty and every entry relayable,
share_rev_signatures never panics. -/
theorem share_rev_no_panic (ctx : Ctx) (net : Net) (rd : RevaultD)
    (cancel emer unvault_emer : Tx × List (BitcoinPubKey × List Byte))
    (hc : cancel.2 ≠ []) (he : emer.2 ≠ []) (hu : unvault_emer.2 ≠ [])
    (hrc : ∀ p ∈ cancel.2, entry_relayable ctx p)
    (hre : ∀ p ∈ emer.2, entry_relayable ctx p)
    (hru : ∀ p ∈ unvault_emer.2, entry_relayable ctx p) :
    ∃ v, share_rev_signatures ctx net rd cancel emer unvault_emer = .value v := by
  rw [share_rev_signatures,
    if_pos ⟨List.length_pos.mpr hc, List.length_pos.mpr he, List.length_pos.mpr hu⟩]
  by_cases hcn : net.connect_ok = true
  · rw [if_pos hcn]
    obtain ⟨v1, hv1⟩ := send_sig_msg_no_panic ctx net
      cancel.1.inner_tx.global.unsigned_tx.txid cancel.2 hrc
    rw [hv1]
    cases v1 with
    | error e => exact ⟨.error e, rfl⟩
    | ok cm =>
      dsimp only
      obtain ⟨v2, hv2⟩ := send_sig_msg_no_panic ctx net
        emer.1.inner_tx.global.unsigned_tx.txid emer.2 hre
      rw [hv2]
      cases v2 with
      | error e => exact ⟨.error e, rfl⟩
      | ok em =>
        dsimp only
        obtain ⟨v3, hv3⟩ := send_sig_msg_no_panic ctx net
          unvault_emer.1.inner_tx.global.unsigned_tx.txid unvault_emer.2 hru
        rw [hv3]
        cases v3 with
        | error e => exact ⟨.error e, rfl⟩
        | ok um => exact ⟨.ok (cm ++ em ++ um), rfl⟩
  · rw [if_neg hcn]
    exact ⟨.error { msg := "transport connect" }, rfl⟩

/-- On success, share_rev_signatures is exactly the three sends in order. -/
theorem share_rev_ok (ctx : Ctx) (net : Net) (rd : RevaultD)
    (cancel_tx emer_tx unvault_emer_tx : Tx)
    (csigs esigs usigs : List (BitcoinPubKey × List Byte)) (msgs : List Sig)
    (h : share_rev_signatures ctx net rd (cancel_tx, csigs) (emer_tx, esigs)
      (unvault_emer_tx, usigs) = .value (.ok msgs)) :
    ∃ cm em um, msgs = cm ++ em ++ um
      ∧ send_sig_msg ctx net cancel_tx.inner_tx.global.unsigned_tx.txid csigs
          = .value (.ok cm)
      ∧ send_sig_msg ctx net emer_tx.inner_tx.global.unsigned_tx.txid esigs
          = .value (.ok em)
      ∧ send_sig_msg ctx net unvault_emer_tx.inner_tx.global.unsigned_tx.txid usigs
          = .value (.ok um) := by
  rw [share_rev_signatures] at h
  split at h
  · split at h
    · split at h
      · cases h
      · cases h
      · rename_i cm heq1
        split at h
        · cases h
        · cases h
        · rename_i em heq2
          split at h
          · cases h
          · cases h
          · rename_i um heq3
            cases h
            exact ⟨cm, em, um, rfl, heq1, heq2, heq3⟩
    · cases h
  · cases h

/-- Every run of the RevocationTxs handler either panics, dies on a
database error, replies without having touched the database, or replies
after exactly the three presigned-row updates followed by one relay
invocation, in that order, each update having succeeded on the database
state left by the previous one. -/
theorem rev_shape (ctx : Ctx) (net : Net) (revaultd : RevaultD) (db : Db)
    (outpoint : OutPoint) (cancel_tx emer_tx unvault_emer_tx : Tx)
    (out : HOutcome (Option String))
    (h : handle_revocation_txs ctx net revaultd db outpoint cancel_tx emer_tx
      unvault_emer_tx = out) :
    (∃ m, out = .panic m) ∨ (∃ er, out = .fatal er) ∨ (∃ r, out = .reply r db [])
    ∨ (∃ r db1 db2 db3 vid i1 i2 i3 s1 s2 s3,
        out = .reply r db3
          [Event.dbUpdate vid i1 s1, Event.dbUpdate vid i2 s2,
           Event.dbUpdate vid i3 s3, Event.relayRev]
        ∧ s1 ≠ [] ∧ s2 ≠ [] ∧ s3 ≠ []
        ∧ db_update_presigned_tx db vid i1 s1 = .ok db1
        ∧ db_update_presigned_tx db1 vid i2 s2 = .ok db2
        ∧ db_update_presigned_tx db2 vid i3 s3 = .ok db3) := by
  rw [handle_revocation_txs] at h
  repeat' split at h
  all_goals try exact Or.inl ⟨_, h.symm⟩
  all_goals try exact Or.inr (Or.inl ⟨_, h.symm⟩)
  all_goals try exact Or.inr (Or.inr (Or.inl ⟨_, h.symm⟩))
  all_goals
    rename_i xA dbA heqA xB dbB heqB xC dbC heqC xS vS heqS
    exact Or.inr (Or.inr (Or.inr
      ⟨_, dbA, dbB, dbC, _, _, _, _, _, _, _, h.symm,
        ne_nil_of_not_contains_false (by assumption),
        ne_nil_of_not_contains_false (by assumption),
        ne_nil_of_not_contains_false (by assumption),
        heqA, heqB, heqC⟩))

/-- Every run of the UnvaultTx handler either panics, dies on a database
error, replies without having touched the database, or replies after
exactly one successful presigned-row update followed by one relay
invocation. -/
theorem unvault_shape (ctx : Ctx) (net : Net) (revaultd : RevaultD) (db : Db)
    (outpoint : OutPoint) (unvault_tx : Tx) (out : HOutcome (Except RpcControlError Unit))
    (h : handle_unvault_tx ctx net revaultd db outpoint unvault_tx = out) :
    (∃ m, out = .panic m) ∨ (∃ er, out = .fatal er) ∨ (∃ r, out = .reply r db [])
    ∨ (∃ r db1 vid i1 s1,
        out = .reply r db1 [Event.dbUpdate vid i1 s1, Event.relayUnvault]
        ∧ s1 ≠ []
        ∧ db_update_presigned_tx db vid i1 s1 = .ok db1) := by
  rw [handle_unvault_tx] at h
  repeat' split at h
  all_goals try exact Or.inl ⟨_, h.symm⟩
  all_goals try exact Or.inr (Or.inl ⟨_, h.symm⟩)
  all_goals try exact Or.inr (Or.inr (Or.inl ⟨_, h.symm⟩))
  all_goals
    rename_i xA dbA heqA xS vS heqS
    exact Or.inr (Or.inr (Or.inr
      ⟨_, dbA, _, _, _, h.symm,
        ne_nil_of_not_contains_false (by assumption), heqA⟩))

/-- The non-empty assertion of share_rev_signatures can never fire inside
the RevocationTxs handler: its outcome is never that assertion's panic. -/
theorem rev_no_assert_panic (ctx : Ctx) (net : Net) (revaultd : RevaultD) (db : Db)
    (outpoint : OutPoint) (cancel_tx emer_tx unvault_emer_tx : Tx) :
    handle_revocation_txs ctx net revaultd db outpoint cancel_tx emer_tx unvault_emer_tx
      ≠ .panic "We would not spam the coordinator, would we?" := by
  intro h
  rw [handle_revocation_txs] at h
  repeat' split at h
  all_goals try cases h
  all_goals try (injection h with hmsg; exact absurd hmsg (by decide))
  all_goals
    try
      (rename_i heqP
       exact absurd (check_sigs_loop_panic_msg ctx _ _ _ _ heqP) (by decide))
  all_goals
    rename_i xi1 in1 hin1 xi2 in2 hin2 xi3 in3 hin3 xx xp hxp hc1 hc2 hc3
      xk1 u1 hv1 xk2 u2 hv2 xk3 u3 hv3 xA dbA hA xB dbB hB xC dbC hC xS heqS
    cases u1
    cases u2
    cases u3
    obtain ⟨v, hvs⟩ := share_rev_no_panic ctx net revaultd
      (cancel_tx, in1.partial_sigs) (emer_tx, in2.partial_sigs)
      (unvault_emer_tx, in3.partial_sigs)
      (ne_nil_of_not_contains_false hc1) (ne_nil_of_not_contains_false hc2)
      (ne_nil_of_not_contains_false hc3)
      (fun p hp => relayable_of_passes ctx _ _ p (Or.inl rfl)
        (((check_sigs_loop_ok_iff ctx _ _ in1.partial_sigs).mp hv1) p hp))
      (fun p hp => relayable_of_passes ctx _ _ p (Or.inl rfl)
        (((check_sigs_loop_ok_iff ctx _ _ in2.partial_sigs).mp hv2) p hp))
      (fun p hp => relayable_of_passes ctx _ _ p (Or.inl rfl)
        (((check_sigs_loop_ok_iff ctx _ _ in3.partial_sigs).mp hv3) p hp))
    rw [hvs] at heqS
    cases heqS

/-- C2: check_revocation_signatures returns Ok exactly when every entry of
the map splits into DER bytes plus the flag byte 0x81 (ALL|ANYONECANPAY),
the DER bytes decode, and secp256k1 verification against the
ALL|ANYONECANPAY sighash of the transaction under the entry's key
succeeds; the first failing entry determines the error: a last byte other
than 0x81 yields InvalidSighash, and a DER decoding or verification
failure yields VerifError. -/
theorem claim_c2 (ctx : Ctx) (tx : Tx) (sigs : List (BitcoinPubKey × List Byte)) :
    (check_revocation_signatures ctx tx sigs = .value (.ok ()) ↔
      ∀ p ∈ sigs, spec_entry_passes ctx
        (ctx.presigned_tx_sighash tx .AllPlusAnyoneCanPay) 0x81 p)
    ∧ ∀ pre p post, sigs = pre ++ p :: post →
        (∀ q ∈ pre, spec_entry_passes ctx
          (ctx.presigned_tx_sighash tx .AllPlusAnyoneCanPay) 0x81 q) →
        ((∀ last init, split_last p.2 = some (last, init) → last ≠ 0x81 →
            check_revocation_signatures ctx tx sigs = .value (.error .InvalidSighash))
         ∧ (∀ init e, split_last p.2 = some (0x81, init) → ctx.from_der init = .error e →
            check_revocation_signatures ctx tx sigs = .value (.error (.VerifError e)))
         ∧ (∀ init s e, split_last p.2 = some (0x81, init) → ctx.from_der init = .ok s →
            ctx.secp_verify (ctx.presigned_tx_sighash tx .AllPlusAnyoneCanPay) s p.1.key
              = .error e →
            check_revocation_signatures ctx tx sigs = .value (.error (.VerifError e)))) := by
  constructor
  · exact check_sigs_loop_ok_iff ctx _ _ sigs
  · intro pre p post hsplit hpre
    subst hsplit
    refine ⟨?_, ?_, ?_⟩
    · intro last init hs hne
      exact check_sigs_loop_first_error ctx _ _ pre post p _ hpre
        (entry_verdict_invalid_sighash ctx _ _ p last init hs hne)
    · intro init e hs hd
      exact check_sigs_loop_first_error ctx _ _ pre post p _ hpre
        (entry_verdict_der_error ctx _ _ p init e hs hd)
    · intro init s e hs hd hv
      exact check_sigs_loop_first_error ctx _ _ pre post p _ hpre
        (entry_verdict_verify_error ctx _ _ p init s e hs hd hv)

/-- Witness for claim_c2: on the single-entry map whose flag byte is 0x01
instead of 0x81, the verifier reports InvalidSighash. -/
theorem claim_c2_witness :
    check_revocation_signatures exCtx exCancelTx [(⟨5⟩, [42, 0x01])]
      = .value (.error .InvalidSighash) :=
  ((claim_c2 exCtx exCancelTx [(⟨5⟩, [42, 0x01])]).2 [] (⟨5⟩, [42, 0x01]) [] rfl
    (by simp)).1 0x01 [42] (by decide) (by decide)

/-- C9 counterexample: a zero-length signature blob makes both checkers
panic (the unwrap of split_last) instead of returning an InvalidLength or
VerifError error as the claim states. -/
theorem claim_c9_counterexample :
    check_revocation_signatures exCtx exCancelTx [(⟨5⟩, [])]
        = .panic "called Option::unwrap on a None value"
    ∧ check_unvault_signatures exCtx (mkTx 13 113 [(⟨5⟩, [])])
        = .panic "called Option::unwrap on a None value" :=
  ⟨rfl, rfl⟩

/-- C9 as amended: on signature maps whose blobs are all non-empty, both
checkers are total — they return a verdict (Ok or a SigError such as
InvalidSighash or VerifError) and never panic; a zero-length blob instead
panics on the unwrap of split_last. -/
theorem claim_c9 :
    (∀ (ctx : Ctx) (tx : Tx) (sigs : List (BitcoinPubKey × List Byte)),
      (∀ p ∈ sigs, p.2 ≠ []) →
      ∃ r, check_revocation_signatures ctx tx sigs = .value r)
    ∧ (∀ (ctx : Ctx) (tx : Tx) (input0 : Input),
      tx.inner_tx.inputs.head? = some input0 →
      (∀ p ∈ input0.partial_sigs, p.2 ≠ []) →
      ∃ r, check_unvault_signatures ctx tx = .value r) := by
  constructor
  · intro ctx tx sigs hne
    exact check_sigs_loop_total ctx _ _ sigs hne
  · intro ctx tx input0 hh hne
    rw [check_unvault_signatures, hh]
    exact check_sigs_loop_total ctx _ _ input0.partial_sigs hne

/-- Witness for claim_c9: both checkers return a verdict on the concrete
well-formed signature maps. -/
theorem claim_c9_witness :
    (∃ r, check_revocation_signatures exCtx exCancelTx exSigs = .value r)
    ∧ ∃ r, check_unvault_signatures exCtx exUnvaultTx = .value r :=
  ⟨claim_c9.1 exCtx exCancelTx exSigs (by decide),
   claim_c9.2 exCtx exUnvaultTx { partial_sigs := exUnvaultSigs } rfl (by decide)⟩

/-- C4: an UnvaultTx request on an existing vault whose status is not
Secured replies Err(InvalidStatus) with the database untouched and no
update or relay performed; validation and persistence run only for a
Secured vault. -/
theorem claim_c4 (ctx : Ctx) (net : Net) (revaultd : RevaultD) (db : Db)
    (outpoint : OutPoint) (unvault_tx : Tx) (db_vault : DbVault)
    (hv : db_vault_by_deposit db outpoint = some db_vault)
    (hne : db_vault.status ≠ .Secured) :
    handle_unvault_tx ctx net revaultd db outpoint unvault_tx
      = .reply (.error (.InvalidStatus db_vault.status .Funded)) db [] := by
  rw [handle_unvault_tx, hv]
  dsimp only
  rw [if_neg hne]

/-- Witness for claim_c4: a Funded vault is rejected with InvalidStatus
and nothing is persisted. -/
theorem claim_c4_witness :
    handle_unvault_tx exCtx exNet exRevaultd exDb { txid := 1, vout := 0 } exUnvaultTx
      = .reply (.error (.InvalidStatus .Funded .Funded)) exDb [] :=
  claim_c4 exCtx exNet exRevaultd exDb { txid := 1, vout := 0 } exUnvaultTx exVault
    (by decide) (by decide)

/-- C3: a RevocationTxs request for an unknown outpoint, or for a vault
whose status is not exactly Funded, is rejected with the descriptive
error string (for an Unconfirmed vault exactly "Invalid vault status:
expected Funded but got Unconfirmed"), with the database untouched and no
update or relay performed; the pipeline proceeds only on a Funded vault. -/
theorem claim_c3 (ctx : Ctx) (net : Net) (revaultd : RevaultD) (db : Db)
    (outpoint : OutPoint) (cancel_tx emer_tx unvault_emer_tx : Tx)
    (hstk : revaultd.is_stakeholder = true) :
    (db_vault_by_deposit db outpoint = none →
      handle_revocation_txs ctx net revaultd db outpoint cancel_tx emer_tx unvault_emer_tx
        = .reply (some "Outpoint does not correspond to an existing vault") db [])
    ∧ (∀ db_vault, db_vault_by_deposit db outpoint = some db_vault →
        db_vault.status ≠ .Funded →
        handle_revocation_txs ctx net revaultd db outpoint cancel_tx emer_tx unvault_emer_tx
          = .reply (some ("Invalid vault status: expected Funded but got "
              ++ db_vault.status.fmt)) db [])
    ∧ (∀ db_vault, db_vault_by_deposit db outpoint = some db_vault →
        db_vault.status = .Unconfirmed →
        handle_revocation_txs ctx net revaultd db outpoint cancel_tx emer_tx unvault_emer_tx
          = .reply (some "Invalid vault status: expected Funded but got Unconfirmed") db []) := by
  refine ⟨?_, ?_, ?_⟩
  · intro hnone
    rw [handle_revocation_txs, if_neg (by simp [hstk]), hnone]
  · intro db_vault hv hne
    rw [handle_revocation_txs, if_neg (by simp [hstk]), hv]
    dsimp only
    rw [if_neg hne]
    rw [show ("Invalid vault status: expected " ++ VaultStatus.fmt .Funded) ++ " but got "
      = "Invalid vault status: expected Funded but got " from rfl]
  · intro db_vault hv hu
    rw [handle_revocation_txs, if_neg (by simp [hstk]), hv]
    dsimp only
    rw [if_neg (by rw [hu]; intro hcon; cases hcon), hu]
    rfl

/-- Witness for claim_c3: the Unconfirmed vault gets exactly the spec's
literal reply and the database is untouched. -/
theorem claim_c3_witness :
    handle_revocation_txs exCtx exNet exRevaultd exDbUnconf { txid := 1, vout := 0 }
      exCancelTx exEmerTx exUETx
      = .reply (some "Invalid vault status: expected Funded but got Unconfirmed")
          exDbUnconf [] :=
  (claim_c3 exCtx exNet exRevaultd exDbUnconf { txid := 1, vout := 0 }
    exCancelTx exEmerTx exUETx rfl).2.2 { exVault with status := .Unconfirmed }
    (by decide) rfl

/-- C7: a vault appears in the ListVaults reply exactly when it passes
both optional AND-combined filters, and every returned entry is the
projection of such a vault, carrying the deposit address re-derived from
its derivation index. -/
theorem claim_c7 (revaultd : RevaultD) (db : Db)
    (statuses : Option (List VaultStatus)) (outpoints : Option (List OutPoint))
    (entry : ListVaultsEntry) :
    (entry ∈ listvaults_from_db revaultd db statuses outpoints ↔
      ∃ v ∈ db.vaults,
        (∀ ss, statuses = some ss → v.status ∈ ss)
        ∧ (∀ ops, outpoints = some ops → v.deposit_outpoint ∈ ops)
        ∧ entry = { amount := v.amount, status := v.status,
                    deposit_outpoint := v.deposit_outpoint,
                    derivation_index := v.derivation_index,
                    updated_at := v.updated_at,
                    address := revaultd.vault_address v.derivation_index })
    ∧ (entry ∈ listvaults_from_db revaultd db statuses outpoints →
        entry.address = revaultd.vault_address entry.derivation_index) := by
  have hmain : entry ∈ listvaults_from_db revaultd db statuses outpoints ↔
      ∃ v ∈ db.vaults,
        (∀ ss, statuses = some ss → v.status ∈ ss)
        ∧ (∀ ops, outpoints = some ops → v.deposit_outpoint ∈ ops)
        ∧ entry = { amount := v.amount, status := v.status,
                    deposit_outpoint := v.deposit_outpoint,
                    derivation_index := v.derivation_index,
                    updated_at := v.updated_at,
                    address := revaultd.vault_address v.derivation_index } := by
    rw [listvaults_from_db, List.mem_filterMap]
    constructor
    · rintro ⟨v, hv, hfv⟩
      split at hfv
      · split at hfv
        · cases hfv
          rename_i h1 h2
          refine ⟨v, hv, ?_, ?_, rfl⟩
          · intro ss hss
            subst hss
            exact List.elem_iff.mp h1
          · intro ops hops
            subst hops
            exact List.elem_iff.mp h2
        · cases hfv
      · cases hfv
    · rintro ⟨v, hv, hstat, hout, rfl⟩
      refine ⟨v, hv, ?_⟩
      split
      · split
        · rfl
        · rename_i hx h2
          exfalso
          cases outpoints with
          | none => exact h2 rfl
          | some ops => exact h2 (List.elem_iff.mpr (hout ops rfl))
      · rename_i h1
        exfalso
        cases statuses with
        | none => exact h1 rfl
        | some ss => exact h1 (List.elem_iff.mpr (hstat ss rfl))
  refine ⟨hmain, ?_⟩
  intro hm
  obtain ⟨v, _, _, _, he⟩ := hmain.mp hm
  subst he
  rfl

/-- Witness for claim_c7: the funded vault passes a matching status filter
and its entry carries the re-derived address. -/
theorem claim_c7_witness :
    ({ amount := 100, status := VaultStatus.Funded,
       deposit_outpoint := { txid := 1, vout := 0 }, derivation_index := 7,
       updated_at := 0, address := 1007 } : ListVaultsEntry)
      ∈ listvaults_from_db exRevaultd exDb (some [VaultStatus.Funded]) none :=
  by
  refine (claim_c7 exRevaultd exDb (some [VaultStatus.Funded]) none _).1.mpr
    ⟨exVault, by decide, ?_, ?_, ?_⟩
  · intro ss hss
    cases hss
    decide
  · intro ops hops
    cases hops
  · decide

/-- C1: once the earlier validation stages pass (Funded vault, matching
wtxids, our signature present in the three maps), the first failing
check_revocation_signatures determines the reply — an error string naming
the specific SigError — and the handler performs no db_update_presigned_tx
call: the database is returned unchanged and no update or relay event
happens (all-or-nothing). -/
theorem claim_c1 (ctx : Ctx) (net : Net) (revaultd : RevaultD) (db : Db)
    (outpoint : OutPoint) (cancel_tx emer_tx unvault_emer_tx : Tx) (db_vault : DbVault)
    (cancel_db_id : Nat) (db_cancel_tx : Tx) (emer_db_id : Nat) (db_emer_tx : Tx)
    (unvault_emer_db_id : Nat) (db_unemer_tx : Tx)
    (cancel_input0 emer_input0 unvault_emer_input0 : Input) (xpub : Nat)
    (hstk : revaultd.is_stakeholder = true)
    (hv : db_vault_by_deposit db outpoint = some db_vault)
    (hs : db_vault.status = VaultStatus.Funded)
    (hc : db_cancel_transaction db db_vault.id = .ok (cancel_db_id, db_cancel_tx))
    (hcw : cancel_tx.inner_tx.global.unsigned_tx.wtxid
      = db_cancel_tx.inner_tx.global.unsigned_tx.wtxid)
    (he : db_emer_transaction db db_vault.id = .ok (emer_db_id, db_emer_tx))
    (hew : emer_tx.inner_tx.global.unsigned_tx.wtxid
      = db_emer_tx.inner_tx.global.unsigned_tx.wtxid)
    (hu : db_unvault_emer_transaction db db_vault.id = .ok (unvault_emer_db_id, db_unemer_tx))
    (huw : unvault_emer_tx.inner_tx.global.unsigned_tx.wtxid
      = db_unemer_tx.inner_tx.global.unsigned_tx.wtxid)
    (hch : cancel_tx.inner_tx.inputs.head? = some cancel_input0)
    (heh : emer_tx.inner_tx.inputs.head? = some emer_input0)
    (huh : unvault_emer_tx.inner_tx.inputs.head? = some unvault_emer_input0)
    (hx : revaultd.our_stk_xpub = some xpub)
    (hkc : contains_key cancel_input0.partial_sigs
      (ctx.derive_pub xpub db_vault.derivation_index) = true)
    (hke : contains_key emer_input0.partial_sigs
      (ctx.derive_pub xpub db_vault.derivation_index) = true)
    (hku : contains_key unvault_emer_input0.partial_sigs
      (ctx.derive_pub xpub db_vault.derivation_index) = true) :
    (∀ er, check_revocation_signatures ctx cancel_tx cancel_input0.partial_sigs
        = .value (.error er) →
      handle_revocation_txs ctx net revaultd db outpoint cancel_tx emer_tx unvault_emer_tx
        = .reply (some ("Invalid signature in Cancel transaction: " ++ SigError.fmt er)) db [])
    ∧ (check_revocation_signatures ctx cancel_tx cancel_input0.partial_sigs
        = .value (.ok ()) →
      ∀ er, check_revocation_signatures ctx emer_tx emer_input0.partial_sigs
        = .value (.error er) →
      handle_revocation_txs ctx net revaultd db outpoint cancel_tx emer_tx unvault_emer_tx
        = .reply (some ("Invalid signature in Emergency transaction: " ++ SigError.fmt er)) db [])
    ∧ (check_revocation_signatures ctx cancel_tx cancel_input0.partial_sigs
        = .value (.ok ()) →
      check_revocation_signatures ctx emer_tx emer_input0.partial_sigs = .value (.ok ()) →
      ∀ er, check_revocation_signatures ctx unvault_emer_tx unvault_emer_input0.partial_sigs
        = .value (.error er) →
      handle_revocation_txs ctx net revaultd db outpoint cancel_tx emer_tx unvault_emer_tx
        = .reply (some ("Invalid signature in Unvault Emergency transaction: "
            ++ SigError.fmt er)) db []) := by
  refine ⟨?_, ?_, ?_⟩
  · intro er hchk
    rw [handle_revocation_txs, if_neg (by simp [hstk]), hv]
    dsimp only
    rw [if_pos hs, hc]
    dsimp only
    rw [if_neg (by simp [hcw]), he]
    dsimp only
    rw [if_neg (by simp [hew]), hu]
    dsimp only
    rw [if_neg (by simp [huw]), hch]
    dsimp only
    rw [heh]
    dsimp only
    rw [huh]
    dsimp only
    rw [hx]
    dsimp only
    rw [if_neg (by simp [hkc]), if_neg (by simp [hke]), if_neg (by simp [hku]), hchk]
  · intro hok1 er hchk
    rw [handle_revocation_txs, if_neg (by simp [hstk]), hv]
    dsimp only
    rw [if_pos hs, hc]
    dsimp only
    rw [if_neg (by simp [hcw]), he]
    dsimp only
    rw [if_neg (by simp [hew]), hu]
    dsimp only
    rw [if_neg (by simp [huw]), hch]
    dsimp only
    rw [heh]
    dsimp only
    rw [huh]
    dsimp only
    rw [hx]
    dsimp only
    rw [if_neg (by simp [hkc]), if_neg (by simp [hke]), if_neg (by simp [hku]), hok1]
    dsimp only
    rw [hchk]
  · intro hok1 hok2 er hchk
    rw [handle_revocation_txs, if_neg (by simp [hstk]), hv]
    dsimp only
    rw [if_pos hs, hc]
    dsimp only
    rw [if_neg (by simp [hcw]), he]
    dsimp only
    rw [if_neg (by simp [hew]), hu]
    dsimp only
    rw [if_neg (by simp [huw]), hch]
    dsimp only
    rw [heh]
    dsimp only
    rw [huh]
    dsimp only
    rw [hx]
    dsimp only
    rw [if_neg (by simp [hkc]), if_neg (by simp [hke]), if_neg (by simp [hku]), hok1]
    dsimp only
    rw [hok2]
    dsimp only
    rw [hchk]

/-- Witness for claim_c1: a Cancel signature with the wrong flag byte is
rejected with the InvalidSighash message and the database is unchanged. -/
theorem claim_c1_witness :
    handle_revocation_txs exCtx exNet exRevaultd exDb { txid := 1, vout := 0 }
      (mkTx 10 110 [(⟨5⟩, [42, 0x01])]) exEmerTx exUETx
      = .reply (some ("Invalid signature in Cancel transaction: "
          ++ SigError.fmt .InvalidSighash)) exDb [] :=
  (claim_c1 exCtx exNet exRevaultd exDb { txid := 1, vout := 0 }
    (mkTx 10 110 [(⟨5⟩, [42, 0x01])]) exEmerTx exUETx exVault
    1 (mkTx 10 110 []) 2 (mkTx 11 111 []) 3 (mkTx 12 112 [])
    { partial_sigs := [(⟨5⟩, [42, 0x01])] } { partial_sigs := exSigs }
    { partial_sigs := exSigs } 3
    rfl (by decide) rfl (by decide) rfl (by decide) rfl (by decide) rfl
    rfl rfl rfl rfl (by decide) (by decide) (by decide)).1
    .InvalidSighash (by decide)

/-- C5: in both the RevocationTxs and UnvaultTx handlers the relay is only
ever invoked after every corresponding db_update_presigned_tx call
succeeded — any reply whose trace holds a relay event holds exactly the
successful updates before it, and the replied database is the one they
produced; and a relay failure after successful persistence is not fatal:
the handler still replies (with the error string) and the merged
signatures stay persisted. -/
theorem claim_c5 :
    (∀ (ctx : Ctx) (net : Net) (revaultd : RevaultD) (db : Db) (outpoint : OutPoint)
        (cancel_tx emer_tx unvault_emer_tx : Tx) (r : Option String) (db' : Db)
        (ev : List Event),
      handle_revocation_txs ctx net revaultd db outpoint cancel_tx emer_tx unvault_emer_tx
          = .reply r db' ev →
      Event.relayRev ∈ ev →
      ∃ db1 db2 vid i1 i2 i3 s1 s2 s3,
        ev = [Event.dbUpdate vid i1 s1, Event.dbUpdate vid i2 s2,
              Event.dbUpdate vid i3 s3, Event.relayRev]
        ∧ db_update_presigned_tx db vid i1 s1 = .ok db1
        ∧ db_update_presigned_tx db1 vid i2 s2 = .ok db2
        ∧ db_update_presigned_tx db2 vid i3 s3 = .ok db')
    ∧ (∀ (ctx : Ctx) (net : Net) (revaultd : RevaultD) (db : Db) (outpoint : OutPoint)
        (unvault_tx : Tx) (r : Except RpcControlError Unit) (db' : Db) (ev : List Event),
      handle_unvault_tx ctx net revaultd db outpoint unvault_tx = .reply r db' ev →
      Event.relayUnvault ∈ ev →
      ∃ vid i1 s1, ev = [Event.dbUpdate vid i1 s1, Event.relayUnvault]
        ∧ db_update_presigned_tx db vid i1 s1 = .ok db')
    ∧ (∀ (ctx : Ctx) (net : Net) (revaultd : RevaultD) (db : Db) (outpoint : OutPoint)
        (cancel_tx emer_tx unvault_emer_tx : Tx) (db_vault : DbVault)
        (cancel_db_id : Nat) (db_cancel_tx : Tx) (emer_db_id : Nat) (db_emer_tx : Tx)
        (unvault_emer_db_id : Nat) (db_unemer_tx : Tx)
        (cancel_input0 emer_input0 unvault_emer_input0 : Input) (xpub : Nat)
        (db1 db2 db3 : Db) (err : RelayError),
      revaultd.is_stakeholder = true →
      db_vault_by_deposit db outpoint = some db_vault →
      db_vault.status = VaultStatus.Funded →
      db_cancel_transaction db db_vault.id = .ok (cancel_db_id, db_cancel_tx) →
      cancel_tx.inner_tx.global.unsigned_tx.wtxid
        = db_cancel_tx.inner_tx.global.unsigned_tx.wtxid →
      db_emer_transaction db db_vault.id = .ok (emer_db_id, db_emer_tx) →
      emer_tx.inner_tx.global.unsigned_tx.wtxid
        = db_emer_tx.inner_tx.global.unsigned_tx.wtxid →
      db_unvault_emer_transaction db db_vault.id = .ok (unvault_emer_db_id, db_unemer_tx) →
      unvault_emer_tx.inner_tx.global.unsigned_tx.wtxid
        = db_unemer_tx.inner_tx.global.unsigned_tx.wtxid →
      cancel_tx.inner_tx.inputs.head? = some cancel_input0 →
      emer_tx.inner_tx.inputs.head? = some emer_input0 →
      unvault_emer_tx.inner_tx.inputs.head? = some unvault_emer_input0 →
      revaultd.our_stk_xpub = some xpub →
      contains_key cancel_input0.partial_sigs
        (ctx.derive_pub xpub db_vault.derivation_index) = true →
      contains_key emer_input0.partial_sigs
        (ctx.derive_pub xpub db_vault.derivation_index) = true →
      contains_key unvault_emer_input0.partial_sigs
        (ctx.derive_pub xpub db_vault.derivation_index) = true →
      check_revocation_signatures ctx cancel_tx cancel_input0.partial_sigs
        = .value (.ok ()) →
      check_revocation_signatures ctx emer_tx emer_input0.partial_sigs = .value (.ok ()) →
      check_revocation_signatures ctx unvault_emer_tx unvault_emer_input0.partial_sigs
        = .value (.ok ()) →
      db_update_presigned_tx db db_vault.id cancel_db_id cancel_input0.partial_sigs
        = .ok db1 →
      db_update_presigned_tx db1 db_vault.id emer_db_id emer_input0.partial_sigs
        = .ok db2 →
      db_update_presigned_tx db2 db_vault.id unvault_emer_db_id
        unvault_emer_input0.partial_sigs = .ok db3 →
      share_rev_signatures ctx net revaultd (cancel_tx, cancel_input0.partial_sigs)
        (emer_tx, emer_input0.partial_sigs) (unvault_emer_tx, unvault_emer_input0.partial_sigs)
        = .value (.error err) →
      handle_revocation_txs ctx net revaultd db outpoint cancel_tx emer_tx unvault_emer_tx
        = .reply (some ("Error while sharing signatures: " ++ err.msg)) db3
            [Event.dbUpdate db_vault.id cancel_db_id cancel_input0.partial_sigs,
             Event.dbUpdate db_vault.id emer_db_id emer_input0.partial_sigs,
             Event.dbUpdate db_vault.id unvault_emer_db_id unvault_emer_input0.partial_sigs,
             Event.relayRev])
    ∧ (∀ (ctx : Ctx) (net : Net) (revaultd : RevaultD) (db : Db) (outpoint : OutPoint)
        (unvault_tx : Tx) (db_vault : DbVault) (unvault_db_id : Nat) (db_unvault_tx : Tx)
        (input0 : Input) (xpub : Nat) (db1 : Db) (err : RelayError),
      db_vault_by_deposit db outpoint = some db_vault →
      db_vault.status = VaultStatus.Secured →
      db_unvault_transaction db db_vault.id = .ok (unvault_db_id, db_unvault_tx) →
      unvault_tx.inner_tx.global.unsigned_tx.wtxid
        = db_unvault_tx.inner_tx.global.unsigned_tx.wtxid →
      unvault_tx.inner_tx.inputs.head? = some input0 →
      revaultd.our_stk_xpub = some xpub →
      contains_key input0.partial_sigs
        (ctx.derive_pub xpub db_vault.derivation_index) = true →
      check_unvault_signatures ctx unvault_tx = .value (.ok ()) →
      db_update_presigned_tx db db_vault.id unvault_db_id input0.partial_sigs = .ok db1 →
      share_unvault_signatures ctx net revaultd unvault_tx = .value (.error err) →
      handle_unvault_tx ctx net revaultd db outpoint unvault_tx
        = .reply (.error (.Communication ("Sharing Unvault signatures with coordinator: '"
            ++ err.msg ++ "'"))) db1
            [Event.dbUpdate db_vault.id unvault_db_id input0.partial_sigs,
             Event.relayUnvault]) := by
  refine ⟨?_, ?_, ?_, ?_⟩
  · intro ctx net revaultd db outpoint cancel_tx emer_tx unvault_emer_tx r db' ev hrun hmem
    rcases rev_shape ctx net revaultd db outpoint cancel_tx emer_tx unvault_emer_tx _ hrun
      with ⟨m, hm⟩ | ⟨er, her⟩ | ⟨r', hr'⟩
        | ⟨r', db1, db2, db3, vid, i1, i2, i3, s1, s2, s3, hout, _, _, _, h1, h2, h3⟩
    · cases hm
    · cases her
    · cases hr'
      simp at hmem
    · cases hout
      exact ⟨db1, db2, vid, i1, i2, i3, s1, s2, s3, rfl, h1, h2, h3⟩
  · intro ctx net revaultd db outpoint unvault_tx r db' ev hrun hmem
    rcases unvault_shape ctx net revaultd db outpoint unvault_tx _ hrun
      with ⟨m, hm⟩ | ⟨er, her⟩ | ⟨r', hr'⟩ | ⟨r', db1, vid, i1, s1, hout, _, h1⟩
    · cases hm
    · cases her
    · cases hr'
      simp at hmem
    · cases hout
      exact ⟨vid, i1, s1, rfl, h1⟩
  · intro ctx net revaultd db outpoint cancel_tx emer_tx unvault_emer_tx db_vault
      cancel_db_id db_cancel_tx emer_db_id db_emer_tx unvault_emer_db_id db_unemer_tx
      cancel_input0 emer_input0 unvault_emer_input0 xpub db1 db2 db3 err
      hstk hv hs hc hcw he hew hu huw hch heh huh hx hkc hke hku hok1 hok2 hok3
      hup1 hup2 hup3 hsh
    rw [handle_revocation_txs, if_neg (by simp [hstk]), hv]
    dsimp only
    rw [if_pos hs, hc]
    dsimp only
    rw [if_neg (by simp [hcw]), he]
    dsimp only
    rw [if_neg (by simp [hew]), hu]
    dsimp only
    rw [if_neg (by simp [huw]), hch]
    dsimp only
    rw [heh]
    dsimp only
    rw [huh]
    dsimp only
    rw [hx]
    dsimp only
    rw [if_neg (by simp [hkc]), if_neg (by simp [hke]), if_neg (by simp [hku]), hok1]
    dsimp only
    rw [hok2]
    dsimp only
    rw [hok3]
    dsimp only
    rw [hup1]
    dsimp only
    rw [hup2]
    dsimp only
    rw [hup3]
    dsimp only
    rw [hsh]
  · intro ctx net revaultd db outpoint unvault_tx db_vault unvault_db_id db_unvault_tx
      input0 xpub db1 err hv hs hut hw hih hx hk hok hup hsh
    rw [handle_unvault_tx, hv]
    dsimp only
    rw [if_pos hs, hut]
    dsimp only
    rw [if_neg (by simp [hw]), hih]
    dsimp only
    rw [hx]
    dsimp only
    rw [if_neg (by simp [hk]), hok]
    dsimp only
    rw [hup]
    dsimp only
    rw [hsh]

/-- Witness for claim_c5: on a network whose writes fail, the handler
still replies — with the relay error string — and the three merged
signature sets stay persisted in the returned database. -/
theorem claim_c5_witness :
    handle_revocation_txs exCtx exNetBad exRevaultd exDb { txid := 1, vout := 0 }
      exCancelTx exEmerTx exUETx
      = .reply (some ("Error while sharing signatures: " ++ "transport write")) exDb3
          [Event.dbUpdate 0 1 exSigs, Event.dbUpdate 0 2 exSigs,
           Event.dbUpdate 0 3 exSigs, Event.relayRev] :=
  claim_c5.2.2.1 exCtx exNetBad exRevaultd exDb { txid := 1, vout := 0 }
    exCancelTx exEmerTx exUETx exVault
    1 (mkTx 10 110 []) 2 (mkTx 11 111 []) 3 (mkTx 12 112 [])
    { partial_sigs := exSigs } { partial_sigs := exSigs } { partial_sigs := exSigs }
    3 exDb1 exDb2 exDb3 { msg := "transport write" }
    rfl (by decide) rfl (by decide) rfl (by decide) rfl (by decide) rfl
    rfl rfl rfl rfl (by decide) (by decide) (by decide)
    (by decide) (by decide) (by decide) (by decide) (by decide) (by decide) (by decide)

/-- C8: on a successful relay of revocation signatures, the messages sent
are one Sig per (pubkey, signature) pair of each of the three maps, in
order, and every message's id field is the respective transaction's
unsigned txid — never its wtxid whenever the two differ. -/
theorem claim_c8 (ctx : Ctx) (net : Net) (rd : RevaultD)
    (cancel_tx emer_tx unvault_emer_tx : Tx)
    (csigs esigs usigs : List (BitcoinPubKey × List Byte)) (msgs : List Sig)
    (h : share_rev_signatures ctx net rd (cancel_tx, csigs) (emer_tx, esigs)
      (unvault_emer_tx, usigs) = .value (.ok msgs)) :
    ∃ cm em um, msgs = cm ++ em ++ um
      ∧ cm.length = csigs.length ∧ em.length = esigs.length ∧ um.length = usigs.length
      ∧ (∀ m ∈ cm, m.id = cancel_tx.inner_tx.global.unsigned_tx.txid)
      ∧ (∀ m ∈ em, m.id = emer_tx.inner_tx.global.unsigned_tx.txid)
      ∧ (∀ m ∈ um, m.id = unvault_emer_tx.inner_tx.global.unsigned_tx.txid)
      ∧ cm.map Sig.pubkey = csigs.map (fun p => p.1.key)
      ∧ em.map Sig.pubkey = esigs.map (fun p => p.1.key)
      ∧ um.map Sig.pubkey = usigs.map (fun p => p.1.key)
      ∧ (cancel_tx.inner_tx.global.unsigned_tx.txid
          ≠ cancel_tx.inner_tx.global.unsigned_tx.wtxid →
          ∀ m ∈ cm, m.id ≠ cancel_tx.inner_tx.global.unsigned_tx.wtxid)
      ∧ (emer_tx.inner_tx.global.unsigned_tx.txid
          ≠ emer_tx.inner_tx.global.unsigned_tx.wtxid →
          ∀ m ∈ em, m.id ≠ emer_tx.inner_tx.global.unsigned_tx.wtxid)
      ∧ (unvault_emer_tx.inner_tx.global.unsigned_tx.txid
          ≠ unvault_emer_tx.inner_tx.global.unsigned_tx.wtxid →
          ∀ m ∈ um, m.id ≠ unvault_emer_tx.inner_tx.global.unsigned_tx.wtxid) := by
  obtain ⟨cm, em, um, hmsgs, hc, he, hu⟩ := share_rev_ok ctx net rd
    cancel_tx emer_tx unvault_emer_tx csigs esigs usigs msgs h
  obtain ⟨hcl, hcid, hcmap⟩ := send_sig_msg_ok ctx net _ csigs cm hc
  obtain ⟨hel, heid, hemap⟩ := send_sig_msg_ok ctx net _ esigs em he
  obtain ⟨hul, huid, humap⟩ := send_sig_msg_ok ctx net _ usigs um hu
  refine ⟨cm, em, um, hmsgs, hcl, hel, hul, hcid, heid, huid, hcmap, hemap, humap,
    ?_, ?_, ?_⟩
  · intro hne m hm
    rw [hcid m hm]
    exact hne
  · intro hne m hm
    rw [heid m hm]
    exact hne
  · intro hne m hm
    rw [huid m hm]
    exact hne

/-- Witness for claim_c8 at the fixtures: the three messages go out with
ids 10, 11 and 12 — the unsigned txids, not the wtxids 110, 111, 112. -/
theorem claim_c8_witness :
    ∃ cm em um,
      [({ pubkey := 5, signature := 1, id := 10 } : Sig),
       { pubkey := 5, signature := 1, id := 11 },
       { pubkey := 5, signature := 1, id := 12 }] = cm ++ em ++ um
      ∧ cm.length = exSigs.length ∧ em.length = exSigs.length ∧ um.length = exSigs.length
      ∧ (∀ m ∈ cm, m.id = exCancelTx.inner_tx.global.unsigned_tx.txid)
      ∧ (∀ m ∈ em, m.id = exEmerTx.inner_tx.global.unsigned_tx.txid)
      ∧ (∀ m ∈ um, m.id = exUETx.inner_tx.global.unsigned_tx.txid)
      ∧ cm.map Sig.pubkey = exSigs.map (fun p => p.1.key)
      ∧ em.map Sig.pubkey = exSigs.map (fun p => p.1.key)
      ∧ um.map Sig.pubkey = exSigs.map (fun p => p.1.key)
      ∧ (exCancelTx.inner_tx.global.unsigned_tx.txid
          ≠ exCancelTx.inner_tx.global.unsigned_tx.wtxid →
          ∀ m ∈ cm, m.id ≠ exCancelTx.inner_tx.global.unsigned_tx.wtxid)
      ∧ (exEmerTx.inner_tx.global.unsigned_tx.txid
          ≠ exEmerTx.inner_tx.global.unsigned_tx.wtxid →
          ∀ m ∈ em, m.id ≠ exEmerTx.inner_tx.global.unsigned_tx.wtxid)
      ∧ (exUETx.inner_tx.global.unsigned_tx.txid
          ≠ exUETx.inner_tx.global.unsigned_tx.wtxid →
          ∀ m ∈ um, m.id ≠ exUETx.inner_tx.global.unsigned_tx.wtxid) :=
  claim_c8 exCtx exNet exRevaultd exCancelTx exEmerTx exUETx exSigs exSigs exSigs
    [{ pubkey := 5, signature := 1, id := 10 }, { pubkey := 5, signature := 1, id := 11 },
     { pubkey := 5, signature := 1, id := 12 }] (by decide)

/-- C10: share_rev_signatures asserts the three maps are non-empty; under
the handler's precondition — each map contains our derived stakeholder
pubkey — the maps are non-empty, so that assertion can never fire, and
indeed no run of the RevocationTxs handler can end in that assertion's
panic. -/
theorem claim_c10 :
    (∀ (ctx : Ctx) (net : Net) (rd : RevaultD)
        (cancel emer unvault_emer : Tx × List (BitcoinPubKey × List Byte))
        (pk : BitcoinPubKey),
      contains_key cancel.2 pk = true → contains_key emer.2 pk = true →
      contains_key unvault_emer.2 pk = true →
      share_rev_signatures ctx net rd cancel emer unvault_emer
        ≠ .panic "We would not spam the coordinator, would we?")
    ∧ (∀ (ctx : Ctx) (net : Net) (revaultd : RevaultD) (db : Db) (outpoint : OutPoint)
        (cancel_tx emer_tx unvault_emer_tx : Tx),
      handle_revocation_txs ctx net revaultd db outpoint cancel_tx emer_tx unvault_emer_tx
        ≠ .panic "We would not spam the coordinator, would we?") := by
  constructor
  · intro ctx net rd c e u pk hkc hke hku hcon
    rw [share_rev_signatures,
      if_pos ⟨List.length_pos.mpr (contains_key_ne_nil hkc),
        List.length_pos.mpr (contains_key_ne_nil hke),
        List.length_pos.mpr (contains_key_ne_nil hku)⟩] at hcon
    by_cases hcn : net.connect_ok = true
    · rw [if_pos hcn] at hcon
      repeat' split at hcon
      all_goals try cases hcon
      all_goals
        rename_i heqP
        rcases send_sig_msg_panic_msg ctx net _ _ _ heqP with h' | h' <;>
          exact absurd h' (by decide)
    · rw [if_neg hcn] at hcon
      cases hcon
  · intro ctx net revaultd db outpoint cancel_tx emer_tx unvault_emer_tx
    exact rev_no_assert_panic ctx net revaultd db outpoint cancel_tx emer_tx unvault_emer_tx

/-- Witness for claim_c10 at the fixtures: the relay is reached with maps
containing our key and does not hit the assertion. -/
theorem claim_c10_witness :
    (share_rev_signatures exCtx exNet exRevaultd (exCancelTx, exSigs) (exEmerTx, exSigs)
        (exUETx, exSigs) ≠ .panic "We would not spam the coordinator, would we?")
    ∧ handle_revocation_txs exCtx exNet exRevaultd exDb { txid := 1, vout := 0 }
        exCancelTx exEmerTx exUETx
        ≠ .panic "We would not spam the coordinator, would we?" :=
  ⟨claim_c10.1 exCtx exNet exRevaultd (exCancelTx, exSigs) (exEmerTx, exSigs)
      (exUETx, exSigs) ⟨5⟩ (by decide) (by decide) (by decide),
   claim_c10.2 exCtx exNet exRevaultd exDb { txid := 1, vout := 0 }
      exCancelTx exEmerTx exUETx⟩

/-- C6, failing input: with no outpoint list (None means all vaults) and a
single Unconfirmed vault — which has no presigned rows — the code does not
reply Err(InvalidStatus): the missing row surfaces as the outer database
error, which the dispatcher treats as fatal. With the same vault requested
through an explicit outpoint list, the per-request Err(InvalidStatus) is
produced as the claim states. -/
theorem claim_c6_bug :
    presigned_txs_list_from_outpoints exRevaultd exDbUnconf none
        = .error { msg := "NotFound" }
    ∧ presigned_txs_list_from_outpoints exRevaultd exDbUnconf none
        ≠ .ok (.error (.InvalidStatus .Unconfirmed .Funded))
    ∧ presigned_txs_list_from_outpoints exRevaultd exDbUnconf
        (some [{ txid := 1, vout := 0 }])
        = .ok (.error (.InvalidStatus .Unconfirmed .Funded)) := by
  refine ⟨rfl, ?_, rfl⟩
  decide

end Revaultd
